import Mathlib

/-! # The ESP32 image loader of the MCUboot Espressif port

A shallow embedding of `boot/espressif/port/esp_loader.c`: the region classifier
(`should_map`, `should_load`), the segment header validator (`verify_segment_header`),
the windowed copier (`process_segment_data`, `process_segment`), the cache/MMU
reconfiguration (`set_cache_and_start_app`), the selection of mapped regions
(`unpack_load_app`) and the unpacker (`esp_app_image_load`).

Machine integers are natural numbers reduced modulo `2 ^ 32` where the C code can wrap.
Flash, RAM and the two MMU tables are functions from addresses (indices) to values; every
call into the flash, window, cache and logging services is also appended to a trace.
-/

set_option maxRecDepth 100000

namespace EspLoader

/-! ## Machine arithmetic -/

/-- Truncation to `uint32_t`. -/
def u32 (n : Nat) : Nat := n % 2 ^ 32

/-- Subtraction of two `uint32_t` values, wrapping below zero. -/
def sub32 (a b : Nat) : Nat := (a + 2 ^ 32 - b % 2 ^ 32) % 2 ^ 32

/-- The macro `MIN(a, b)`, `(((a) < (b)) ? (a) : (b))`. -/
def MIN (a b : Nat) : Nat := if a < b then a else b

/-! ## Constants of the platform -/

/-- Address ranges and MMU table geometry of the chip. The SoC headers defining these macros
are not among the sources, so they are parameters of the development. -/
structure Soc where
  SOC_IROM_LOW : Nat
  SOC_IROM_HIGH : Nat
  SOC_DROM_LOW : Nat
  SOC_DROM_HIGH : Nat
  SOC_RTC_IRAM_LOW : Nat
  SOC_RTC_IRAM_HIGH : Nat
  SOC_RTC_DRAM_LOW : Nat
  SOC_RTC_DRAM_HIGH : Nat
  SOC_RTC_DATA_LOW : Nat
  SOC_RTC_DATA_HIGH : Nat
  DPORT_FLASH_MMU_TABLE_SIZE : Nat
  DPORT_FLASH_MMU_TABLE_INVALID_VAL : Nat

/-- The values of the ESP32 (the target selected by `sdkconfig.h`), used for concrete runs. -/
def esp32 : Soc where
  SOC_IROM_LOW := 0x400D0000
  SOC_IROM_HIGH := 0x40400000
  SOC_DROM_LOW := 0x3F400000
  SOC_DROM_HIGH := 0x3F800000
  SOC_RTC_IRAM_LOW := 0x400C0000
  SOC_RTC_IRAM_HIGH := 0x400C2000
  SOC_RTC_DRAM_LOW := 0x3FF80000
  SOC_RTC_DRAM_HIGH := 0x3FF82000
  SOC_RTC_DATA_LOW := 0x50000000
  SOC_RTC_DATA_HIGH := 0x50002000
  DPORT_FLASH_MMU_TABLE_SIZE := 0x100
  DPORT_FLASH_MMU_TABLE_INVALID_VAL := 0x100

/-- Modelled from the spec: the macro `SPI_FLASH_MMU_PAGE_SIZE` is declared outside the
sources; the hardware page (one flash window) is 64 KiB. -/
def SPI_FLASH_MMU_PAGE_SIZE : Nat := 0x10000

/-- Modelled from the spec: the macro `MMAP_ALIGNED_MASK` is declared outside the sources; a
flash offset is window-aligned when its low 16 bits are zero. -/
def MMAP_ALIGNED_MASK : Nat := 0x0000FFFF

/-- Modelled from the spec: the macro `MMU_FLASH_MASK` is declared outside the sources; it
aligns an address down to the 64 KiB page size. -/
def MMU_FLASH_MASK : Nat := 0xFFFF0000

/-- The success code of `esp_err_t`. -/
def ESP_OK : Int := 0

/-- The `esp_err_t` code for an invalid image (`ESP_ERR_IMAGE_BASE + 2`). -/
def ESP_ERR_IMAGE_INVALID : Int := 0x2002

/-- Capacity of the segment arrays of `esp_image_metadata_t`. -/
abbrev ESP_IMAGE_MAX_SEGMENTS : Nat := 16

/-- Modelled from the spec: the type `esp_image_header_t` is declared outside the sources; the
fixed-size image header occupies 24 bytes in flash. -/
def sizeof_esp_image_header_t : Nat := 24

/-- Size of `esp_image_segment_header_t`: two `uint32_t` fields. -/
def sizeof_esp_image_segment_header_t : Nat := 8

/-! ## Data model -/

/-- The header of one segment: target address and payload length. -/
structure esp_image_segment_header_t where
  load_addr : Nat
  data_len : Nat
deriving DecidableEq, Repr

/-- The fields of the image header that the loader uses. -/
structure esp_image_header_t where
  magic : Nat
  segment_count : Nat
  spi_mode : Nat
  spi_size : Nat
  entry_addr : Nat
deriving DecidableEq, Repr

/-- The image metadata built while walking the image. -/
structure esp_image_metadata_t where
  image : esp_image_header_t
  segments : Fin ESP_IMAGE_MAX_SEGMENTS → esp_image_segment_header_t
  segment_data : Fin ESP_IMAGE_MAX_SEGMENTS → Nat

/-- The part of `struct flash_area` that the loader uses: the base offset of the area. -/
structure flash_area where
  fa_off : Nat
deriving DecidableEq, Repr

/-! ## Region classifier and header validator -/

/-- Source: `should_map`. -/
def should_map (soc : Soc) (load_addr : Nat) : Bool :=
  (decide (load_addr ≥ soc.SOC_IROM_LOW) && decide (load_addr < soc.SOC_IROM_HIGH))
    || (decide (load_addr ≥ soc.SOC_DROM_LOW) && decide (load_addr < soc.SOC_DROM_HIGH))

/-- Source: `should_load`. The local `load_rtc_memory` is the constant `false` there. -/
def should_load (soc : Soc) (load_addr : Nat) : Bool :=
  let load_rtc_memory := false
  if should_map soc load_addr then false
  else if load_addr < 0x10000000 then false
  else if !load_rtc_memory
      && ((decide (load_addr ≥ soc.SOC_RTC_IRAM_LOW) && decide (load_addr < soc.SOC_RTC_IRAM_HIGH))
        || (decide (load_addr ≥ soc.SOC_RTC_DRAM_LOW) && decide (load_addr < soc.SOC_RTC_DRAM_HIGH))
        || (decide (load_addr ≥ soc.SOC_RTC_DATA_LOW) && decide (load_addr < soc.SOC_RTC_DATA_HIGH)))
    then false
  else true

/-- Source: `verify_segment_header`. -/
def verify_segment_header (soc : Soc) (segment : esp_image_segment_header_t)
    (segment_data_offs : Nat) : Int :=
  if segment.data_len &&& 3 ≠ 0 ∨ segment.data_len ≥ 0x1000000 then ESP_ERR_IMAGE_INVALID
  else
    let load_addr := segment.load_addr
    let map_segment := should_map soc load_addr
    if map_segment = true
        ∧ segment_data_offs % SPI_FLASH_MMU_PAGE_SIZE ≠ load_addr % SPI_FLASH_MMU_PAGE_SIZE then
      ESP_ERR_IMAGE_INVALID
    else ESP_OK

/-! ## Services outside the loader -/

/-- Messages of `MCUBOOT_LOG_ERR` and `MCUBOOT_LOG_INF`, one constructor per call site. -/
inductive Log where
  | flash_area_open_failed (rc : Int)
  | flash_area_read_failed (rc : Int)
  | image_header (h : esp_image_header_t)
  | error_in_flash_read
  | segment_info (data_len data_addr load_addr : Nat)
  | segment_header_verification_failed
  | bootloader_mmap_failed
  | failed_to_start_app (rc : Nat)
  | drom_mapping_failed
  | irom_mapping_failed
  | mapping_segment_as_drom (i : Nat)
  | mapping_segment_as_irom (i : Nat)
deriving DecidableEq, Repr

/-- One call into a service outside the loader, or one store to a hardware table. -/
inductive Event where
  | log_err (m : Log)
  | log_inf (m : Log)
  | flash_area_open (area_id : Int) (rc : Int)
  | flash_area_read (off len : Nat) (rc : Int)
  | flash_area_close (fap : Option flash_area)
  | bootloader_mmap (src_addr size : Nat) (ok : Bool)
  | memcpy (dest src n : Nat)
  | bootloader_munmap (src_addr : Nat)
  | Cache_Read_Disable (cpu_no : Nat)
  | Cache_Flush (cpu_no : Nat)
  | pro_flash_mmu_table_store (i val : Nat)
  | cache_flash_mmu_set (cpu_no pid vaddr paddr psize num rc : Nat)
  | cache_ctrl1_clr_bit (cpu_no : Nat)
  | Cache_Read_Enable (cpu_no : Nat)
  | entry (entry_addr : Nat)
deriving DecidableEq, Repr

/-- What the services outside the loader answer: the contents of flash and the results of
the flash-area, flash-window and ROM cache routines. Nothing is assumed about them. -/
structure Env where
  /-- The byte stored at an absolute flash address. -/
  flash : Nat → Nat
  flash_area_id_from_image_slot : Int → Int
  /-- Return code of `flash_area_open` for an area id. -/
  flash_area_open : Int → Int
  /-- The flash area that a successful `flash_area_open` yields. -/
  fap : Int → flash_area
  /-- Return code of `flash_area_read` for an offset and a length. -/
  flash_area_read : Nat → Nat → Int
  /-- Whether `bootloader_mmap` of an address and a size returns a window. -/
  bootloader_mmap : Nat → Nat → Bool
  bootloader_mmap_get_free_pages : Nat
  /-- Return code of the ROM routine `cache_flash_mmu_set` for its six arguments. -/
  cache_flash_mmu_set : Nat → Nat → Nat → Nat → Nat → Nat → Nat
  /-- Index of the page-table entry that translates a virtual address. -/
  mmu_entry : Nat → Nat

/-- The machine state the loader acts on. -/
structure World where
  /-- Bytes of the target memory, by address. -/
  mem : Nat → Nat
  /-- The table `DPORT_PRO_FLASH_MMU_TABLE`. -/
  pro_mmu : Nat → Nat
  /-- The table `DPORT_APP_FLASH_MMU_TABLE`. -/
  app_mmu : Nat → Nat
  /-- The calls made so far, oldest first. -/
  trace : List Event

/-- Append one event to the trace. -/
def World.emit (w : World) (e : Event) : World :=
  { w with trace := w.trace ++ [e] }

/-- The byte of flash at an absolute address, as seen by a read or through a window. -/
def flash_byte (env : Env) (a : Nat) : Nat := env.flash a % 256

/-- A little-endian `uint32_t` stored in flash. -/
def flash_le32 (env : Env) (a : Nat) : Nat :=
  flash_byte env a + 0x100 * flash_byte env (a + 1) + 0x10000 * flash_byte env (a + 2)
    + 0x1000000 * flash_byte env (a + 3)

/-- The segment header stored at `offset` of the flash area (what a successful
`flash_area_read` of `sizeof(esp_image_segment_header_t)` bytes delivers). -/
def read_segment_header (env : Env) (fap : flash_area) (offset : Nat) :
    esp_image_segment_header_t where
  load_addr := flash_le32 env (u32 (fap.fa_off + offset))
  data_len := flash_le32 env (u32 (fap.fa_off + offset) + 4)

/-- Modelled from the spec: the layout of `esp_image_header_t` is declared outside the
sources; the header starts with magic, segment count, SPI mode, SPI speed/size, entry address. -/
def read_image_header (env : Env) (fap : flash_area) (offset : Nat) : esp_image_header_t where
  magic := flash_byte env (u32 (fap.fa_off + offset))
  segment_count := flash_byte env (u32 (fap.fa_off + offset) + 1)
  spi_mode := flash_byte env (u32 (fap.fa_off + offset) + 2)
  spi_size := flash_byte env (u32 (fap.fa_off + offset) + 3) / 16
  entry_addr := flash_le32 env (u32 (fap.fa_off + offset) + 4)

/-- The effect of `memcpy(dest, window, n)` where the window maps flash from `src`. -/
def memcpy (env : Env) (dest src n : Nat) (w : World) : World :=
  { w with
    mem := fun a => if dest ≤ a ∧ a < dest + n then flash_byte env (src + (a - dest)) else w.mem a
    trace := w.trace ++ [Event.memcpy dest src n] }

/-! ## Windowed segment copier -/

/-- Source: `process_segment_data`. -/
def process_segment_data (env : Env) (load_addr data_addr data_len : Nat) (do_load : Bool)
    (w : World) : Int × World :=
  if !do_load then (ESP_OK, w)
  else
    let data := env.bootloader_mmap data_addr data_len
    let w1 := w.emit (Event.bootloader_mmap data_addr data_len data)
    if !data then (-1, w1.emit (Event.log_err Log.bootloader_mmap_failed))
    else
      let w2 := memcpy env load_addr data_addr data_len w1
      (0, w2.emit (Event.bootloader_munmap data_addr))

/-- Source: the `while (data_len_remain > 0)` loop of `process_segment`. The first argument
bounds the number of evaluations of the loop condition; `none` means the bound was reached
before the loop had ended. The state is `data_addr`, `data_len_remain`, `rc` and the world. -/
def process_segment_loop (env : Env) (fap : flash_area) (load_addr : Nat) (do_load : Bool)
    (free_page_count : Nat) : Nat → Nat → Nat → Int → World → Option (Int × World)
  | 0, _, _, _, _ => none
  | fuel + 1, data_addr, data_len_remain, rc, w =>
    if data_len_remain > 0 then
      let offset_page := if data_addr &&& MMAP_ALIGNED_MASK ≠ 0 then 1 else 0
      let data_len := MIN data_len_remain
        (u32 (sub32 free_page_count offset_page * SPI_FLASH_MMU_PAGE_SIZE))
      let r := process_segment_data env load_addr (u32 (fap.fa_off + data_addr)) data_len do_load w
      process_segment_loop env fap load_addr do_load free_page_count fuel
        (u32 (data_addr + data_len)) (data_len_remain - data_len) r.1 r.2
    else some (rc, w)

/-- Source: `process_segment`. Returns the return code, the header as left in the caller's
buffer, and the world; `none` when the copy loop did not end within `fuel`. -/
def process_segment (soc : Soc) (env : Env) (fuel : Nat) (fap : flash_area) (offset : Nat)
    (header : esp_image_segment_header_t) (w : World) :
    Option (Int × esp_image_segment_header_t × World) :=
  let rc := env.flash_area_read offset sizeof_esp_image_segment_header_t
  let w1 := w.emit (Event.flash_area_read offset sizeof_esp_image_segment_header_t rc)
  if rc ≠ 0 then some (rc, header, w1.emit (Event.log_err Log.error_in_flash_read))
  else
    let header := read_segment_header env fap offset
    let load_addr := header.load_addr
    let data_len := header.data_len
    let data_addr := u32 (offset + sizeof_esp_image_segment_header_t)
    let w2 := w1.emit (Event.log_inf (Log.segment_info data_len data_addr load_addr))
    if verify_segment_header soc header (u32 (fap.fa_off + data_addr)) ≠ ESP_OK then
      some (-1, header, w2.emit (Event.log_err Log.segment_header_verification_failed))
    else
      let do_load := should_load soc load_addr
      let free_page_count := u32 env.bootloader_mmap_get_free_pages
      match process_segment_loop env fap load_addr do_load free_page_count fuel
          data_addr data_len rc w2 with
      | none => none
      | some (_, w3) => some (0, header, w3)

/-! ## Cache/MMU reconfiguration and launch -/

/-- How a routine that may start the application ends. -/
inductive Exit where
  /-- The routine returned to its caller. -/
  | returned
  /-- Control was transferred to the entry address; the routine never returns. -/
  | launched (entry_addr : Nat)
  /-- An array of `esp_image_metadata_t` was indexed at or beyond its capacity. -/
  | out_of_bounds (i : Nat)
deriving DecidableEq, Repr

/-- Modelled from the spec: the routine `bootloader_cache_pages_to_map` is not among the
sources; it is the number of pages needed to cover `size` bytes that start at `vaddr`,
counted from `vaddr` aligned down to the page size. -/
def bootloader_cache_pages_to_map (size vaddr : Nat) : Nat :=
  u32 (size + (vaddr - (vaddr &&& MMU_FLASH_MASK)) + SPI_FLASH_MMU_PAGE_SIZE - 1)
    / SPI_FLASH_MMU_PAGE_SIZE

/-- Modelled from the spec: the ROM routine `cache_flash_mmu_set` is not among the sources;
when it succeeds (returns 0) it programs `num` consecutive entries of the page table of
cache way `cpu_no`, from the entry of `vaddr` on, with consecutive physical flash pages
starting at the page of `paddr`; when it fails it programs nothing. -/
def cache_flash_mmu_set (env : Env) (cpu_no pid vaddr paddr psize num : Nat) (w : World) :
    Nat × World :=
  let rc := env.cache_flash_mmu_set cpu_no pid vaddr paddr psize num
  let w1 := w.emit (Event.cache_flash_mmu_set cpu_no pid vaddr paddr psize num rc)
  let program := fun (table : Nat → Nat) (i : Nat) =>
    if env.mmu_entry vaddr ≤ i ∧ i < env.mmu_entry vaddr + num then
      paddr / (psize * 1024) + (i - env.mmu_entry vaddr)
    else table i
  if rc ≠ 0 then (rc, w1)
  else if cpu_no = 0 then (rc, { w1 with pro_mmu := program w1.pro_mmu })
  else (rc, { w1 with app_mmu := program w1.app_mmu })

/-- Source: the loop of `set_cache_and_start_app` that stores the invalid value into entries
`i`, `i + 1`, ... of `DPORT_PRO_FLASH_MMU_TABLE`; the first argument is the number of entries
left. -/
def clear_pro_mmu (soc : Soc) : Nat → Nat → World → World
  | 0, _, w => w
  | n + 1, i, w =>
    clear_pro_mmu soc n (i + 1)
      { w with
        pro_mmu := fun j => if j = i then soc.DPORT_FLASH_MMU_TABLE_INVALID_VAL else w.pro_mmu j
        trace := w.trace ++
          [Event.pro_flash_mmu_table_store i soc.DPORT_FLASH_MMU_TABLE_INVALID_VAL] }

/-- Source: `set_cache_and_start_app`. -/
def set_cache_and_start_app (soc : Soc) (env : Env)
    (drom_addr drom_load_addr drom_size irom_addr irom_load_addr irom_size entry_addr : Nat)
    (w : World) : Exit × World :=
  let w := w.emit (Event.Cache_Read_Disable 0)
  let w := w.emit (Event.Cache_Flush 0)
  let w := clear_pro_mmu soc soc.DPORT_FLASH_MMU_TABLE_SIZE 0 w
  let drom_load_addr_aligned := drom_load_addr &&& MMU_FLASH_MASK
  let drom_page_count := bootloader_cache_pages_to_map drom_size drom_load_addr
  let r1 := cache_flash_mmu_set env 0 0 drom_load_addr_aligned (drom_addr &&& MMU_FLASH_MASK) 64
    drom_page_count w
  let r2 := cache_flash_mmu_set env 1 0 drom_load_addr_aligned (drom_addr &&& MMU_FLASH_MASK) 64
    drom_page_count r1.2
  let irom_load_addr_aligned := irom_load_addr &&& MMU_FLASH_MASK
  let irom_page_count := bootloader_cache_pages_to_map irom_size irom_load_addr
  let r3 := cache_flash_mmu_set env 0 0 irom_load_addr_aligned (irom_addr &&& MMU_FLASH_MASK) 64
    irom_page_count r2.2
  let r4 := cache_flash_mmu_set env 1 0 irom_load_addr_aligned (irom_addr &&& MMU_FLASH_MASK) 64
    irom_page_count r3.2
  let rc := r1.1 ||| r2.1 ||| r3.1 ||| r4.1
  let w := r4.2.emit (Event.cache_ctrl1_clr_bit 0)
  let w := w.emit (Event.cache_ctrl1_clr_bit 1)
  let w := w.emit (Event.Cache_Read_Enable 0)
  if rc ≠ 0 then (Exit.returned, w.emit (Event.log_err (Log.failed_to_start_app rc)))
  else (Exit.launched entry_addr, w.emit (Event.entry entry_addr))

/-- The six locals of `unpack_load_app` that describe the two mapped regions. -/
structure Regions where
  drom_addr : Nat
  drom_load_addr : Nat
  drom_size : Nat
  irom_addr : Nat
  irom_load_addr : Nat
  irom_size : Nat
deriving DecidableEq, Repr

/-- Source: the body of the `for` loop of `unpack_load_app` for segment `i`. -/
def unpack_segment (soc : Soc) (fap : flash_area) (header : esp_image_segment_header_t)
    (segment_data : Nat) (i : Nat) (r : Regions) (w : World) : Regions × World :=
  let s1 : Regions × World :=
    if header.load_addr ≥ soc.SOC_DROM_LOW ∧ header.load_addr < soc.SOC_DROM_HIGH then
      let w1 := if r.drom_addr ≠ 0 then w.emit (Event.log_err Log.drom_mapping_failed)
        else w.emit (Event.log_inf (Log.mapping_segment_as_drom i))
      ({ r with
          drom_addr := u32 (segment_data + fap.fa_off)
          drom_load_addr := header.load_addr
          drom_size := header.data_len }, w1)
    else (r, w)
  if header.load_addr ≥ soc.SOC_IROM_LOW ∧ header.load_addr < soc.SOC_IROM_HIGH then
    let w2 := if s1.1.irom_addr ≠ 0 then s1.2.emit (Event.log_err Log.irom_mapping_failed)
      else s1.2.emit (Event.log_inf (Log.mapping_segment_as_irom i))
    ({ s1.1 with
        irom_addr := u32 (segment_data + fap.fa_off)
        irom_load_addr := header.load_addr
        irom_size := header.data_len }, w2)
  else s1

/-- Source: the `for` loop of `unpack_load_app`, from index `i` with `n` segments left. The
first component is `none` when an index reaches the capacity of the metadata arrays. -/
def unpack_segments (soc : Soc) (fap : flash_area) (data : esp_image_metadata_t) :
    Nat → Nat → Regions → World → Option Regions × World
  | 0, _, r, w => (some r, w)
  | n + 1, i, r, w =>
    if h : i < ESP_IMAGE_MAX_SEGMENTS then
      let s := unpack_segment soc fap (data.segments ⟨i, h⟩) (data.segment_data ⟨i, h⟩) i r w
      unpack_segments soc fap data n (i + 1) s.1 s.2
    else (none, w)

/-- Source: `unpack_load_app`. -/
def unpack_load_app (soc : Soc) (env : Env) (fap : flash_area) (data : esp_image_metadata_t)
    (w : World) : Exit × World :=
  match unpack_segments soc fap data data.image.segment_count 0 ⟨0, 0, 0, 0, 0, 0⟩ w with
  | (none, w1) => (Exit.out_of_bounds ESP_IMAGE_MAX_SEGMENTS, w1)
  | (some r, w1) =>
    set_cache_and_start_app soc env r.drom_addr r.drom_load_addr r.drom_size
      r.irom_addr r.irom_load_addr r.irom_size data.image.entry_addr w1

/-! ## Image unpacker -/

/-- Source: the `for` loop of `esp_app_image_load`, from index `i` with `n` segments left;
the state is `next_addr`, the metadata and the world. The result is `none` when a copy loop
did not end within `fuel`; its first component is `none` when an index reaches the capacity
of the metadata arrays. -/
def load_segments (soc : Soc) (env : Env) (fuel : Nat) (fap : flash_area) :
    Nat → Nat → Nat → esp_image_metadata_t → World →
      Option (Option (Nat × esp_image_metadata_t) × World)
  | 0, _, next_addr, data, w => some (some (next_addr, data), w)
  | n + 1, i, next_addr, data, w =>
    if h : i < ESP_IMAGE_MAX_SEGMENTS then
      match process_segment soc env fuel fap next_addr (data.segments ⟨i, h⟩) w with
      | none => none
      | some (_, header, w1) =>
        let next_addr1 := u32 (next_addr + sizeof_esp_image_segment_header_t)
        let data1 : esp_image_metadata_t :=
          { data with
            segments := fun j => if j = ⟨i, h⟩ then header else data.segments j
            segment_data := fun j => if j = ⟨i, h⟩ then next_addr1 else data.segment_data j }
        load_segments soc env fuel fap n (i + 1) (u32 (next_addr1 + header.data_len)) data1 w1
    else some (none, w)

/-- Source: `esp_app_image_load`. The argument `data` is the content of the local metadata
buffer on entry, which the C code does not initialise. The result is `none` when a copy loop
did not end within `fuel`. -/
def esp_app_image_load (soc : Soc) (env : Env) (fuel : Nat) (slot : Int) (hdr_offset : Nat)
    (data : esp_image_metadata_t) (w : World) : Option (Exit × World) :=
  let area_id := env.flash_area_id_from_image_slot slot
  let rc := env.flash_area_open area_id
  let w := w.emit (Event.flash_area_open area_id rc)
  if rc ≠ 0 then
    let w := w.emit (Event.log_err (Log.flash_area_open_failed rc))
    some (Exit.returned, w.emit (Event.flash_area_close none))
  else
    let fap := env.fap area_id
    let rc := env.flash_area_read hdr_offset sizeof_esp_image_header_t
    let w := w.emit (Event.flash_area_read hdr_offset sizeof_esp_image_header_t rc)
    if rc ≠ 0 then
      let w := w.emit (Event.log_err (Log.flash_area_read_failed rc))
      some (Exit.returned, w.emit (Event.flash_area_close (some fap)))
    else
      let data : esp_image_metadata_t := { data with image := read_image_header env fap hdr_offset }
      let w := w.emit (Event.log_inf (Log.image_header data.image))
      let next_addr := u32 (hdr_offset + sizeof_esp_image_header_t)
      match load_segments soc env fuel fap data.image.segment_count 0 next_addr data w with
      | none => none
      | some (none, w) => some (Exit.out_of_bounds ESP_IMAGE_MAX_SEGMENTS, w)
      | some (some (_, data), w) =>
        let w := w.emit (Event.flash_area_close (some fap))
        match unpack_load_app soc env fap data w with
        | (Exit.returned, w) => some (Exit.returned, w.emit (Event.flash_area_close (some fap)))
        | r => some r

/-! ## Vocabulary for the statements -/

/-- The events that `w1` has recorded beyond those of `w`. -/
def events_since (w w1 : World) : List Event := w1.trace.drop w.trace.length

/-- The stores of the invalidation loop for entries `i, ..., i + n - 1`. -/
def clear_events (soc : Soc) (n i : Nat) : List Event :=
  (List.range n).map
    (fun k => Event.pro_flash_mmu_table_store (i + k) soc.DPORT_FLASH_MMU_TABLE_INVALID_VAL)

/-- The events of one run of `set_cache_and_start_app`, in order. -/
def set_cache_events (soc : Soc) (env : Env)
    (drom_addr drom_load_addr drom_size irom_addr irom_load_addr irom_size entry_addr : Nat) :
    List Event :=
  let dv := drom_load_addr &&& MMU_FLASH_MASK
  let dp := drom_addr &&& MMU_FLASH_MASK
  let dn := bootloader_cache_pages_to_map drom_size drom_load_addr
  let iv := irom_load_addr &&& MMU_FLASH_MASK
  let ip := irom_addr &&& MMU_FLASH_MASK
  let inn := bootloader_cache_pages_to_map irom_size irom_load_addr
  let rc := env.cache_flash_mmu_set 0 0 dv dp 64 dn ||| env.cache_flash_mmu_set 1 0 dv dp 64 dn
    ||| env.cache_flash_mmu_set 0 0 iv ip 64 inn ||| env.cache_flash_mmu_set 1 0 iv ip 64 inn
  [Event.Cache_Read_Disable 0, Event.Cache_Flush 0]
    ++ clear_events soc soc.DPORT_FLASH_MMU_TABLE_SIZE 0
    ++ [Event.cache_flash_mmu_set 0 0 dv dp 64 dn (env.cache_flash_mmu_set 0 0 dv dp 64 dn),
        Event.cache_flash_mmu_set 1 0 dv dp 64 dn (env.cache_flash_mmu_set 1 0 dv dp 64 dn),
        Event.cache_flash_mmu_set 0 0 iv ip 64 inn (env.cache_flash_mmu_set 0 0 iv ip 64 inn),
        Event.cache_flash_mmu_set 1 0 iv ip 64 inn (env.cache_flash_mmu_set 1 0 iv ip 64 inn),
        Event.cache_ctrl1_clr_bit 0, Event.cache_ctrl1_clr_bit 1, Event.Cache_Read_Enable 0,
        if rc ≠ 0 then Event.log_err (Log.failed_to_start_app rc) else Event.entry entry_addr]

/-- Entry `i` lies among the `num` consecutive entries that a `cache_flash_mmu_set` call for
`vaddr` programs. -/
def programmed (env : Env) (vaddr num i : Nat) : Prop :=
  env.mmu_entry vaddr ≤ i ∧ i < env.mmu_entry vaddr + num

instance (env : Env) (vaddr num i : Nat) : Decidable (programmed env vaddr num i) := by
  unfold programmed
  infer_instance

/-- The event is a store to a page table: an invalidating store or a programming call. -/
def Event.is_table_write : Event → Bool
  | Event.pro_flash_mmu_table_store _ _ => true
  | Event.cache_flash_mmu_set _ _ _ _ _ _ _ => true
  | _ => false

/-- The event is a programming call of the ROM routine. -/
def Event.is_programming : Event → Bool
  | Event.cache_flash_mmu_set _ _ _ _ _ _ _ => true
  | _ => false

/-- The return codes of the `cache_flash_mmu_set` calls recorded in a list of events. -/
def mmu_set_rcs (l : List Event) : List Nat :=
  l.filterMap fun e =>
    match e with
    | Event.cache_flash_mmu_set _ _ _ _ _ _ rc => some rc
    | _ => none

/-- The alignment penalty of the copy loop: 1 iff the flash offset is not window-aligned. -/
def alignment_penalty (data_addr : Nat) : Nat :=
  if data_addr &&& MMAP_ALIGNED_MASK ≠ 0 then 1 else 0

/-- The largest chunk the copy loop requests at a flash offset, as the C expression
`(free_page_count - offset_page) * SPI_FLASH_MMU_PAGE_SIZE` computes it. -/
def max_chunk (free_page_count data_addr : Nat) : Nat :=
  u32 (sub32 free_page_count (alignment_penalty data_addr) * SPI_FLASH_MMU_PAGE_SIZE)

/-- The event is a window request. -/
def Event.is_mmap : Event → Bool
  | Event.bootloader_mmap _ _ _ => true
  | _ => false

/-- The event is a window request that was granted. -/
def Event.is_mmap_ok : Event → Bool
  | Event.bootloader_mmap _ _ true => true
  | _ => false

/-- The event is a copy into the target memory. -/
def Event.is_memcpy : Event → Bool
  | Event.memcpy _ _ _ => true
  | _ => false

/-- The event is the release of a window. -/
def Event.is_munmap : Event → Bool
  | Event.bootloader_munmap _ => true
  | _ => false

/-- The events of one call of `process_segment_data`. -/
def chunk_events (env : Env) (load_addr data_addr data_len : Nat) (do_load : Bool) :
    List Event :=
  if do_load = true then
    if env.bootloader_mmap data_addr data_len = true then
      [Event.bootloader_mmap data_addr data_len true, Event.memcpy load_addr data_addr data_len,
        Event.bootloader_munmap data_addr]
    else
      [Event.bootloader_mmap data_addr data_len false, Event.log_err Log.bootloader_mmap_failed]
  else []

/-- A machine state on entry to the loader: RAM cleared, every entry of both page tables
still mapping flash page 7 (a mapping of the bootloader), nothing recorded yet. -/
def boot_world : World where
  mem := fun _ => 0
  pro_mmu := fun _ => 7
  app_mmu := fun _ => 7
  trace := []

/-- The content of the local metadata buffer before the loader fills it. -/
def blank_metadata : esp_image_metadata_t where
  image := ⟨0, 0, 0, 0, 0⟩
  segments := fun _ => ⟨0, 0⟩
  segment_data := fun _ => 0

/-- Services that always succeed, over a given flash content, flash-area base offset, number
of free windows and window behaviour. Page-table entries follow the ESP32 layout: data
addresses from entry 0, instruction addresses from entry 64. -/
def test_env (flash : Nat → Nat) (fa_off free : Nat) (mmap : Nat → Nat → Bool) : Env where
  flash := flash
  flash_area_id_from_image_slot := fun slot => slot + 1
  flash_area_open := fun _ => 0
  fap := fun _ => ⟨fa_off⟩
  flash_area_read := fun _ _ => 0
  bootloader_mmap := mmap
  bootloader_mmap_get_free_pages := free
  cache_flash_mmu_set := fun _ _ _ _ _ _ => 0
  mmu_entry := fun v =>
    if v ≥ 0x40000000 then 64 + (v - 0x40000000) / 0x10000 else (v - 0x3F400000) / 0x10000

/-- Flash holding, in the area at 0x10000, an image at offset 0x20 with two segments for
address 0x3FFB0000: the first of length 5 (not a multiple of 4), the second of length 4 with
payload AA BB CC DD. The entry address is 0x40080000. -/
def bad_length_flash (a : Nat) : Nat :=
  if a = 0x10020 then 0xE9 else if a = 0x10021 then 2
  else if a = 0x10026 then 0x08 else if a = 0x10027 then 0x40
  else if a = 0x1003A then 0xFB else if a = 0x1003B then 0x3F else if a = 0x1003C then 5
  else if a = 0x10047 then 0xFB else if a = 0x10048 then 0x3F else if a = 0x10049 then 4
  else if a = 0x1004D then 0xAA else if a = 0x1004E then 0xBB
  else if a = 0x1004F then 0xCC else if a = 0x10050 then 0xDD
  else 0

/-- The services for `bad_length_flash`, with two free windows. -/
def bad_length_env : Env := test_env bad_length_flash 0x10000 2 (fun _ _ => true)

/-- Flash holding, in the area at 0x10000, an image at offset 0xFFE0 with one segment for
address 0x3FFB0000 of length 0x10004; its payload starts at the window-aligned flash address
0x20000 and its byte number `k` is `k % 251 + 1`. -/
def two_chunk_flash (a : Nat) : Nat :=
  if a ≥ 0x20000 then (a - 0x20000) % 251 + 1
  else if a = 0x1FFE0 then 0xE9 else if a = 0x1FFE1 then 1
  else if a = 0x1FFE6 then 0x08 else if a = 0x1FFE7 then 0x40
  else if a = 0x1FFFA then 0xFB else if a = 0x1FFFB then 0x3F
  else if a = 0x1FFFC then 0x04 else if a = 0x1FFFE then 0x01
  else 0

/-- The services for `two_chunk_flash`, with one free window. -/
def two_chunk_env : Env := test_env two_chunk_flash 0x10000 1 (fun _ _ => true)

/-- The services for `two_chunk_flash`, with one free window, where the window request for
the first chunk (flash address 0x20000) is refused. -/
def mmap_fails_env : Env := test_env two_chunk_flash 0x10000 1 (fun a _ => decide (a ≠ 0x20000))

/-- Flash holding, in an area at 0x8000 (not a multiple of 64 KiB), a segment header at
offset 0xFFF8 for address 0x3FFB0000 with length 0x10000; the payload starts at offset
0x10000 of the area, that is at flash address 0x18000. -/
def unaligned_area_flash (a : Nat) : Nat :=
  if a = 0x17FFA then 0xFB else if a = 0x17FFB then 0x3F else if a = 0x17FFE then 0x01 else 0

/-- The services for `unaligned_area_flash`, with one free window. -/
def unaligned_area_env : Env := test_env unaligned_area_flash 0x8000 1 (fun _ _ => true)

/-- The number of 64 KiB flash pages that the byte range `[addr, addr + size)` touches. -/
def pages_touched (addr size : Nat) : Nat :=
  if size = 0 then 0
  else (addr + size - 1) / SPI_FLASH_MMU_PAGE_SIZE - addr / SPI_FLASH_MMU_PAGE_SIZE + 1

/-- Flash holding, in the area at 0x10000, a segment header at offset 0x38 for address
0x3FFB0000 with length 4; the payload starts at offset 0x40, which is not window-aligned. -/
def one_window_flash (a : Nat) : Nat :=
  if a = 0x1003A then 0xFB else if a = 0x1003B then 0x3F else if a = 0x1003C then 4 else 0

/-- The services for `one_window_flash`, with one free window. -/
def one_window_env : Env := test_env one_window_flash 0x10000 1 (fun _ _ => true)

/-- Image metadata with two segments in the instruction-mapped range: segment 0 for address
0x400D0020 (length 0x1000, payload at offset 0x20) and segment 1 for address 0x400E0020
(length 0x2000, payload at offset 0x10020); the entry address is 0x400D0020. -/
def two_irom_metadata : esp_image_metadata_t where
  image := ⟨0xE9, 2, 0, 0, 0x400D0020⟩
  segments := fun i => if i.val = 0 then ⟨0x400D0020, 0x1000⟩
    else if i.val = 1 then ⟨0x400E0020, 0x2000⟩ else ⟨0, 0⟩
  segment_data := fun i => if i.val = 0 then 0x20 else if i.val = 1 then 0x10020 else 0

/-- Services over an empty flash, area at 0x10000. -/
def plain_env : Env := test_env (fun _ => 0) 0x10000 2 (fun _ _ => true)

/-- The event of the `cache_flash_mmu_set` call that `set_cache_and_start_app` makes for cache
way `cpu_no` and the region with flash address `addr`, load address `load_addr` and `size`
bytes. -/
def mmu_set_call (env : Env) (cpu_no addr load_addr size : Nat) : Event :=
  Event.cache_flash_mmu_set cpu_no 0 (load_addr &&& MMU_FLASH_MASK) (addr &&& MMU_FLASH_MASK) 64
    (bootloader_cache_pages_to_map size load_addr)
    (env.cache_flash_mmu_set cpu_no 0 (load_addr &&& MMU_FLASH_MASK) (addr &&& MMU_FLASH_MASK) 64
      (bootloader_cache_pages_to_map size load_addr))

/-- The load address of a segment header lies in the instruction-mapped range. -/
def in_irom (soc : Soc) (header : esp_image_segment_header_t) : Prop :=
  header.load_addr ≥ soc.SOC_IROM_LOW ∧ header.load_addr < soc.SOC_IROM_HIGH

instance (soc : Soc) : DecidablePred (in_irom soc) := by
  intro header
  unfold in_irom
  infer_instance

/-- The load address of a segment header lies in the data-mapped range. -/
def in_drom (soc : Soc) (header : esp_image_segment_header_t) : Prop :=
  header.load_addr ≥ soc.SOC_DROM_LOW ∧ header.load_addr < soc.SOC_DROM_HIGH

instance (soc : Soc) : DecidablePred (in_drom soc) := by
  intro header
  unfold in_drom
  infer_instance

/-- The descriptor recorded for the instruction region: flash address, load address, size. -/
def Regions.irom (r : Regions) : Nat × Nat × Nat := (r.irom_addr, r.irom_load_addr, r.irom_size)

/-- The descriptor recorded for the data region: flash address, load address, size. -/
def Regions.drom (r : Regions) : Nat × Nat × Nat := (r.drom_addr, r.drom_load_addr, r.drom_size)

/-- The descriptor of segment `j` of the metadata: absolute flash address of its payload, load
address, length. -/
def descriptor (fap : flash_area) (data : esp_image_metadata_t)
    (j : Fin ESP_IMAGE_MAX_SEGMENTS) : Nat × Nat × Nat :=
  (u32 (data.segment_data j + fap.fa_off), (data.segments j).load_addr,
    (data.segments j).data_len)

/-- The events of one pass of the loop body of `unpack_load_app`. -/
def unpack_segment_events (soc : Soc) (header : esp_image_segment_header_t) (i : Nat)
    (r : Regions) : List Event :=
  (if in_drom soc header then
      [if r.drom_addr ≠ 0 then Event.log_err Log.drom_mapping_failed
        else Event.log_inf (Log.mapping_segment_as_drom i)]
    else [])
  ++ (if in_irom soc header then
      [if r.irom_addr ≠ 0 then Event.log_err Log.irom_mapping_failed
        else Event.log_inf (Log.mapping_segment_as_irom i)]
    else [])

/-- The address lies in one of the three retained-memory ranges (RTC IRAM, RTC DRAM, RTC
data). -/
def in_rtc (soc : Soc) (a : Nat) : Prop :=
  (soc.SOC_RTC_IRAM_LOW ≤ a ∧ a < soc.SOC_RTC_IRAM_HIGH)
    ∨ (soc.SOC_RTC_DRAM_LOW ≤ a ∧ a < soc.SOC_RTC_DRAM_HIGH)
    ∨ (soc.SOC_RTC_DATA_LOW ≤ a ∧ a < soc.SOC_RTC_DATA_HIGH)

instance (soc : Soc) (a : Nat) : Decidable (in_rtc soc a) := by
  unfold in_rtc
  infer_instance

/-- Flash holding, in the area at 0x10000, a segment header at offset 0x38 for the
instruction-mapped address 0x400D0040 with length 4; the payload starts at offset 0x40 (flash
address 0x10040), congruent to the load address modulo 64 KiB and not window-aligned. -/
def mapped_segment_flash (a : Nat) : Nat :=
  if a = 0x10038 then 0x40 else if a = 0x1003A then 0x0D else if a = 0x1003B then 0x40
  else if a = 0x1003C then 4 else 0

/-- The services for `mapped_segment_flash`, with one free window. -/
def mapped_segment_env : Env := test_env mapped_segment_flash 0x10000 1 (fun _ _ => true)

/-- Services over an empty flash where `flash_area_open` fails with -1. -/
def open_fails_env : Env :=
  { test_env (fun _ => 0) 0x10000 2 (fun _ _ => true) with flash_area_open := fun _ => -1 }

/-- Flash holding, in the area at 0x10000, an image header at offset 0x20 whose segment count
is 17; every other byte is 0, so each segment header reads as load address 0, length 0. -/
def many_segments_flash (a : Nat) : Nat := if a = 0x10021 then 17 else 0

/-- The services for `many_segments_flash`, with two free windows. -/
def many_segments_env : Env := test_env many_segments_flash 0x10000 2 (fun _ _ => true)

/-- Image metadata announcing 17 segments, all with load address 0 and length 0. -/
def many_segments_metadata : esp_image_metadata_t where
  image := ⟨0, 17, 0, 0, 0⟩
  segments := fun _ => ⟨0, 0⟩
  segment_data := fun _ => 0

/-- Image metadata of two segments: segment 0 for the instruction-mapped address 0x400D0020
(length 4096, payload at offset 0x20) and segment 1 for the RAM address 0x3FFB0000 (length
16, payload at offset 0x1028); the entry address is 0x40080000. -/
def scenario_a_metadata : esp_image_metadata_t where
  image := ⟨0xE9, 2, 0, 0, 0x40080000⟩
  segments := fun i => if i.val = 0 then ⟨0x400D0020, 4096⟩
    else if i.val = 1 then ⟨0x3FFB0000, 16⟩ else ⟨0, 0⟩
  segment_data := fun i => if i.val = 0 then 0x20 else if i.val = 1 then 0x1028 else 0

/-- The offsets of the `flash_area_read` calls recorded in a list of events. -/
def read_offsets (l : List Event) : List Nat :=
  l.filterMap fun e =>
    match e with
    | Event.flash_area_read off _ _ => some off
    | _ => none

/-- The data length recorded for segment `j` in the metadata (0 beyond the capacity). -/
def segment_len (data : esp_image_metadata_t) (j : Nat) : Nat :=
  if h : j < ESP_IMAGE_MAX_SEGMENTS then (data.segments ⟨j, h⟩).data_len else 0

/-- The offset at which the header of segment `i` lies when the image header is at
`hdr_offset` and segment `j` has `len j` payload bytes: image header, then the headers and
payloads of the segments before `i`, back to back (32-bit arithmetic). -/
def header_offset (hdr_offset : Nat) (len : Nat → Nat) (i : Nat) : Nat :=
  u32 (hdr_offset + sizeof_esp_image_header_t
    + (Finset.range i).sum (fun j => sizeof_esp_image_segment_header_t + len j))

/-- The offset at which the payload of segment `i` lies: right after its header. -/
def data_offset (hdr_offset : Nat) (len : Nat → Nat) (i : Nat) : Nat :=
  u32 (hdr_offset + sizeof_esp_image_header_t
    + (Finset.range i).sum (fun j => sizeof_esp_image_segment_header_t + len j)
    + sizeof_esp_image_segment_header_t)

/-- The bytes between the header of segment `i` and the header of segment `k`: headers and
payloads of segments `i, ..., k - 1`. -/
def span (len : Nat → Nat) (i k : Nat) : Nat :=
  (Finset.Ico i k).sum (fun j => sizeof_esp_image_segment_header_t + len j)

/-- The return code of the `cache_flash_mmu_set` call that `set_cache_and_start_app` makes for
cache way `cpu_no` and the region with flash address `addr`, load address `load_addr` and
`size` bytes, as answered by the services. -/
def mmu_set_result (env : Env) (cpu_no addr load_addr size : Nat) : Nat :=
  env.cache_flash_mmu_set cpu_no 0 (load_addr &&& MMU_FLASH_MASK) (addr &&& MMU_FLASH_MASK) 64
    (bootloader_cache_pages_to_map size load_addr)

/-- Flash holding, in the area at 0x10000, an image at offset 0x20 with two segments of
length 4: the first for address 0x3FFB0000 (header at offset 0x38, payload at offset 0x40,
which is not window-aligned), the second for address 0x3FFB0010 (header at offset 0x44,
payload at offset 0x4C). The entry address is 0x40080000. -/
def stalled_image_flash (a : Nat) : Nat :=
  if a = 0x10020 then 0xE9 else if a = 0x10021 then 2
  else if a = 0x10026 then 0x08 else if a = 0x10027 then 0x40
  else if a = 0x1003A then 0xFB else if a = 0x1003B then 0x3F else if a = 0x1003C then 4
  else if a = 0x10044 then 0x10 else if a = 0x10046 then 0xFB else if a = 0x10047 then 0x3F
  else if a = 0x10048 then 4
  else 0

/-- The services for `stalled_image_flash`, with one free window. -/
def stalled_image_env : Env := test_env stalled_image_flash 0x10000 1 (fun _ _ => true)

theorem and_three_eq_mod (n : Nat) : n &&& 3 = n % 4 :=
  Nat.and_pow_two_sub_one_eq_mod n 2

theorem lor_eq_zero_iff (a b : Nat) : a ||| b = 0 ↔ a = 0 ∧ b = 0 := by
  constructor
  · intro h
    constructor
    · by_contra ha
      obtain ⟨i, hi⟩ := Nat.ne_zero_implies_bit_true ha
      have := Nat.testBit_or a b i
      rw [h, hi] at this
      simp at this
    · by_contra hb
      obtain ⟨i, hi⟩ := Nat.ne_zero_implies_bit_true hb
      have := Nat.testBit_or a b i
      rw [h, hi] at this
      simp at this
  · rintro ⟨rfl, rfl⟩
    rfl

theorem events_since_append (w w1 : World) (l : List Event) (h : w1.trace = w.trace ++ l) :
    events_since w w1 = l := by
  simp [events_since, h]

@[simp] theorem emit_trace (w : World) (e : Event) : (w.emit e).trace = w.trace ++ [e] := rfl
@[simp] theorem emit_mem (w : World) (e : Event) : (w.emit e).mem = w.mem := rfl
@[simp] theorem emit_pro_mmu (w : World) (e : Event) : (w.emit e).pro_mmu = w.pro_mmu := rfl
@[simp] theorem emit_app_mmu (w : World) (e : Event) : (w.emit e).app_mmu = w.app_mmu := rfl

theorem clear_events_succ (soc : Soc) (n i : Nat) :
    clear_events soc (n + 1) i =
      Event.pro_flash_mmu_table_store i soc.DPORT_FLASH_MMU_TABLE_INVALID_VAL
        :: clear_events soc n (i + 1) := by
  simp only [clear_events, List.range_succ_eq_map, List.map_cons, List.map_map]
  congr 1
  apply List.map_congr_left
  intro k _
  simp only [Function.comp, Nat.succ_eq_add_one]
  congr 1
  omega

theorem clear_pro_mmu_trace (soc : Soc) (n i : Nat) (w : World) :
    (clear_pro_mmu soc n i w).trace = w.trace ++ clear_events soc n i := by
  induction n generalizing i w with
  | zero => simp [clear_pro_mmu, clear_events]
  | succ n ih =>
    rw [clear_pro_mmu, ih, clear_events_succ]
    simp

theorem clear_pro_mmu_mem (soc : Soc) (n i : Nat) (w : World) :
    (clear_pro_mmu soc n i w).mem = w.mem := by
  induction n generalizing i w with
  | zero => rfl
  | succ n ih => rw [clear_pro_mmu, ih]

theorem clear_pro_mmu_app_mmu (soc : Soc) (n i : Nat) (w : World) :
    (clear_pro_mmu soc n i w).app_mmu = w.app_mmu := by
  induction n generalizing i w with
  | zero => rfl
  | succ n ih => rw [clear_pro_mmu, ih]

theorem clear_pro_mmu_pro_mmu (soc : Soc) (n i : Nat) (w : World) (j : Nat) :
    (clear_pro_mmu soc n i w).pro_mmu j =
      if i ≤ j ∧ j < i + n then soc.DPORT_FLASH_MMU_TABLE_INVALID_VAL else w.pro_mmu j := by
  induction n generalizing i w with
  | zero =>
    have h3 : ¬ (i ≤ j ∧ j < i + 0) := by omega
    rw [if_neg h3]
    rfl
  | succ n ih =>
    rw [clear_pro_mmu, ih]
    by_cases h1 : j = i
    · subst h1
      simp
    · by_cases h2 : i + 1 ≤ j ∧ j < i + 1 + n
      · have h3 : i ≤ j ∧ j < i + (n + 1) := by omega
        simp [h2, h3]
      · have h3 : ¬ (i ≤ j ∧ j < i + (n + 1)) := by omega
        simp [h2, h3, h1]

@[simp] theorem cache_flash_mmu_set_fst (env : Env) (c p v pa ps n : Nat) (w : World) :
    (cache_flash_mmu_set env c p v pa ps n w).1 = env.cache_flash_mmu_set c p v pa ps n := by
  simp only [cache_flash_mmu_set]
  split_ifs <;> rfl

@[simp] theorem cache_flash_mmu_set_trace (env : Env) (c p v pa ps n : Nat) (w : World) :
    (cache_flash_mmu_set env c p v pa ps n w).2.trace =
      w.trace ++ [Event.cache_flash_mmu_set c p v pa ps n (env.cache_flash_mmu_set c p v pa ps n)] := by
  simp only [cache_flash_mmu_set]
  split_ifs <;> rfl

@[simp] theorem cache_flash_mmu_set_mem (env : Env) (c p v pa ps n : Nat) (w : World) :
    (cache_flash_mmu_set env c p v pa ps n w).2.mem = w.mem := by
  simp only [cache_flash_mmu_set]
  split_ifs <;> rfl

theorem set_cache_and_start_app_trace (soc : Soc) (env : Env)
    (drom_addr drom_load_addr drom_size irom_addr irom_load_addr irom_size entry_addr : Nat)
    (w : World) :
    (set_cache_and_start_app soc env drom_addr drom_load_addr drom_size irom_addr
        irom_load_addr irom_size entry_addr w).2.trace =
      w.trace ++ set_cache_events soc env drom_addr drom_load_addr drom_size irom_addr
        irom_load_addr irom_size entry_addr := by
  unfold set_cache_and_start_app set_cache_events
  simp only [cache_flash_mmu_set_fst]
  split_ifs <;>
    simp [clear_pro_mmu_trace]

theorem set_cache_and_start_app_exit (soc : Soc) (env : Env)
    (drom_addr drom_load_addr drom_size irom_addr irom_load_addr irom_size entry_addr : Nat)
    (w : World) :
    (set_cache_and_start_app soc env drom_addr drom_load_addr drom_size irom_addr
        irom_load_addr irom_size entry_addr w).1 =
      if env.cache_flash_mmu_set 0 0 (drom_load_addr &&& MMU_FLASH_MASK)
            (drom_addr &&& MMU_FLASH_MASK) 64 (bootloader_cache_pages_to_map drom_size drom_load_addr)
          ||| env.cache_flash_mmu_set 1 0 (drom_load_addr &&& MMU_FLASH_MASK)
            (drom_addr &&& MMU_FLASH_MASK) 64 (bootloader_cache_pages_to_map drom_size drom_load_addr)
          ||| env.cache_flash_mmu_set 0 0 (irom_load_addr &&& MMU_FLASH_MASK)
            (irom_addr &&& MMU_FLASH_MASK) 64 (bootloader_cache_pages_to_map irom_size irom_load_addr)
          ||| env.cache_flash_mmu_set 1 0 (irom_load_addr &&& MMU_FLASH_MASK)
            (irom_addr &&& MMU_FLASH_MASK) 64 (bootloader_cache_pages_to_map irom_size irom_load_addr)
          ≠ 0
      then Exit.returned else Exit.launched entry_addr := by
  unfold set_cache_and_start_app
  simp only [cache_flash_mmu_set_fst]
  split_ifs <;> rfl

theorem cache_flash_mmu_set_pro_mmu (env : Env) (c p v pa ps n : Nat) (w : World) (i : Nat) :
    (cache_flash_mmu_set env c p v pa ps n w).2.pro_mmu i =
      if env.cache_flash_mmu_set c p v pa ps n = 0 ∧ c = 0 ∧ programmed env v n i then
        pa / (ps * 1024) + (i - env.mmu_entry v)
      else w.pro_mmu i := by
  by_cases hc : c = 0
  · subst hc
    by_cases hrc : env.cache_flash_mmu_set 0 p v pa ps n = 0 <;>
      simp [cache_flash_mmu_set, programmed, hrc]
  · by_cases hrc : env.cache_flash_mmu_set c p v pa ps n = 0 <;>
      simp [cache_flash_mmu_set, programmed, hrc, hc]

theorem cache_flash_mmu_set_app_mmu (env : Env) (c p v pa ps n : Nat) (w : World) (i : Nat) :
    (cache_flash_mmu_set env c p v pa ps n w).2.app_mmu i =
      if env.cache_flash_mmu_set c p v pa ps n = 0 ∧ c ≠ 0 ∧ programmed env v n i then
        pa / (ps * 1024) + (i - env.mmu_entry v)
      else w.app_mmu i := by
  by_cases hc : c = 0
  · subst hc
    by_cases hrc : env.cache_flash_mmu_set 0 p v pa ps n = 0 <;>
      simp [cache_flash_mmu_set, programmed, hrc]
  · by_cases hrc : env.cache_flash_mmu_set c p v pa ps n = 0 <;>
      simp [cache_flash_mmu_set, programmed, hrc, hc]

theorem mmu_set_rcs_clear_events (soc : Soc) (n i : Nat) :
    mmu_set_rcs (clear_events soc n i) = [] := by
  simp [mmu_set_rcs, clear_events, List.filterMap_map, List.filterMap_eq_nil_iff]

theorem mem_clear_events (soc : Soc) (n i : Nat) (e : Event) :
    e ∈ clear_events soc n i ↔
      ∃ k, k < n ∧ e = Event.pro_flash_mmu_table_store (i + k)
        soc.DPORT_FLASH_MMU_TABLE_INVALID_VAL := by
  simp only [clear_events, List.mem_map, List.mem_range]
  constructor
  · rintro ⟨k, hk, rfl⟩
    exact ⟨k, hk, rfl⟩
  · rintro ⟨k, hk, rfl⟩
    exact ⟨k, hk, rfl⟩

theorem set_cache_and_start_app_pro_mmu (soc : Soc) (env : Env)
    (drom_addr drom_load_addr drom_size irom_addr irom_load_addr irom_size entry_addr : Nat)
    (w : World) (i : Nat)
    (hd : ¬ programmed env (drom_load_addr &&& MMU_FLASH_MASK)
      (bootloader_cache_pages_to_map drom_size drom_load_addr) i)
    (hi : ¬ programmed env (irom_load_addr &&& MMU_FLASH_MASK)
      (bootloader_cache_pages_to_map irom_size irom_load_addr) i) :
    (set_cache_and_start_app soc env drom_addr drom_load_addr drom_size irom_addr
        irom_load_addr irom_size entry_addr w).2.pro_mmu i =
      if i < soc.DPORT_FLASH_MMU_TABLE_SIZE then soc.DPORT_FLASH_MMU_TABLE_INVALID_VAL
      else w.pro_mmu i := by
  unfold set_cache_and_start_app
  simp only [cache_flash_mmu_set_fst]
  split_ifs <;>
    simp_all [cache_flash_mmu_set_pro_mmu, cache_flash_mmu_set_app_mmu, clear_pro_mmu_pro_mmu]

theorem set_cache_and_start_app_app_mmu (soc : Soc) (env : Env)
    (drom_addr drom_load_addr drom_size irom_addr irom_load_addr irom_size entry_addr : Nat)
    (w : World) (i : Nat)
    (hd : ¬ programmed env (drom_load_addr &&& MMU_FLASH_MASK)
      (bootloader_cache_pages_to_map drom_size drom_load_addr) i)
    (hi : ¬ programmed env (irom_load_addr &&& MMU_FLASH_MASK)
      (bootloader_cache_pages_to_map irom_size irom_load_addr) i) :
    (set_cache_and_start_app soc env drom_addr drom_load_addr drom_size irom_addr
        irom_load_addr irom_size entry_addr w).2.app_mmu i = w.app_mmu i := by
  unfold set_cache_and_start_app
  simp only [cache_flash_mmu_set_fst]
  split_ifs <;>
    simp_all [cache_flash_mmu_set_pro_mmu, cache_flash_mmu_set_app_mmu, clear_pro_mmu_app_mmu]

theorem mmu_set_rcs_set_cache_events (soc : Soc) (env : Env)
    (drom_addr drom_load_addr drom_size irom_addr irom_load_addr irom_size entry_addr : Nat) :
    mmu_set_rcs (set_cache_events soc env drom_addr drom_load_addr drom_size irom_addr
        irom_load_addr irom_size entry_addr) =
      [env.cache_flash_mmu_set 0 0 (drom_load_addr &&& MMU_FLASH_MASK)
          (drom_addr &&& MMU_FLASH_MASK) 64 (bootloader_cache_pages_to_map drom_size drom_load_addr),
        env.cache_flash_mmu_set 1 0 (drom_load_addr &&& MMU_FLASH_MASK)
          (drom_addr &&& MMU_FLASH_MASK) 64 (bootloader_cache_pages_to_map drom_size drom_load_addr),
        env.cache_flash_mmu_set 0 0 (irom_load_addr &&& MMU_FLASH_MASK)
          (irom_addr &&& MMU_FLASH_MASK) 64 (bootloader_cache_pages_to_map irom_size irom_load_addr),
        env.cache_flash_mmu_set 1 0 (irom_load_addr &&& MMU_FLASH_MASK)
          (irom_addr &&& MMU_FLASH_MASK) 64
          (bootloader_cache_pages_to_map irom_size irom_load_addr)] := by
  have hc := mmu_set_rcs_clear_events soc soc.DPORT_FLASH_MMU_TABLE_SIZE 0
  unfold mmu_set_rcs at hc ⊢
  unfold set_cache_events
  simp only [List.filterMap_append, hc]
  split_ifs <;> simp [List.filterMap_cons]

theorem entry_mem_set_cache_events (soc : Soc) (env : Env)
    (drom_addr drom_load_addr drom_size irom_addr irom_load_addr irom_size entry_addr a : Nat) :
    Event.entry a ∈ set_cache_events soc env drom_addr drom_load_addr drom_size irom_addr
        irom_load_addr irom_size entry_addr ↔
      a = entry_addr ∧
        ∀ rc ∈ mmu_set_rcs (set_cache_events soc env drom_addr drom_load_addr drom_size irom_addr
          irom_load_addr irom_size entry_addr), rc = 0 := by
  rw [mmu_set_rcs_set_cache_events]
  unfold set_cache_events
  simp only [List.mem_append, mem_clear_events, List.mem_cons, List.mem_singleton,
    List.not_mem_nil, or_false, reduceCtorEq, false_or, and_false, exists_false, forall_eq_or_imp,
    forall_eq, ne_eq, lor_eq_zero_iff]
  generalize env.cache_flash_mmu_set 0 0 (drom_load_addr &&& MMU_FLASH_MASK)
    (drom_addr &&& MMU_FLASH_MASK) 64 (bootloader_cache_pages_to_map drom_size drom_load_addr) = r1
  generalize env.cache_flash_mmu_set 1 0 (drom_load_addr &&& MMU_FLASH_MASK)
    (drom_addr &&& MMU_FLASH_MASK) 64 (bootloader_cache_pages_to_map drom_size drom_load_addr) = r2
  generalize env.cache_flash_mmu_set 0 0 (irom_load_addr &&& MMU_FLASH_MASK)
    (irom_addr &&& MMU_FLASH_MASK) 64 (bootloader_cache_pages_to_map irom_size irom_load_addr) = r3
  generalize env.cache_flash_mmu_set 1 0 (irom_load_addr &&& MMU_FLASH_MASK)
    (irom_addr &&& MMU_FLASH_MASK) 64 (bootloader_cache_pages_to_map irom_size irom_load_addr) = r4
  by_cases h1 : r1 = 0 <;> by_cases h2 : r2 = 0 <;> by_cases h3 : r3 = 0 <;>
    by_cases h4 : r4 = 0 <;> simp [h1, h2, h3, h4]

theorem process_segment_loop_succ (env : Env) (fap : flash_area) (load_addr : Nat)
    (do_load : Bool) (free fuel data_addr remain : Nat) (rc : Int) (w : World) :
    process_segment_loop env fap load_addr do_load free (fuel + 1) data_addr remain rc w =
      if remain > 0 then
        process_segment_loop env fap load_addr do_load free fuel
          (u32 (data_addr + MIN remain (max_chunk free data_addr)))
          (remain - MIN remain (max_chunk free data_addr))
          (process_segment_data env load_addr (u32 (fap.fa_off + data_addr))
            (MIN remain (max_chunk free data_addr)) do_load w).1
          (process_segment_data env load_addr (u32 (fap.fa_off + data_addr))
            (MIN remain (max_chunk free data_addr)) do_load w).2
      else some (rc, w) := rfl

theorem process_segment_loop_stuck (env : Env) (fap : flash_area) (load_addr : Nat)
    (do_load : Bool) (free data_addr remain : Nat)
    (haddr : data_addr < 2 ^ 32) (hrem : 0 < remain) (hchunk : max_chunk free data_addr = 0)
    (fuel : Nat) (rc : Int) (w : World) :
    process_segment_loop env fap load_addr do_load free fuel data_addr remain rc w = none := by
  induction fuel generalizing rc w with
  | zero => rfl
  | succ n ih =>
    have hmin : MIN remain 0 = 0 := by
      unfold MIN
      split_ifs <;> omega
    have hu : u32 (data_addr + 0) = data_addr := by
      unfold u32
      omega
    rw [process_segment_loop_succ, if_pos hrem, hchunk, hmin, hu, Nat.sub_zero]
    exact ih _ _

theorem alignment_penalty_eq (data_addr : Nat) :
    alignment_penalty data_addr = if data_addr % 65536 ≠ 0 then 1 else 0 := by
  unfold alignment_penalty MMAP_ALIGNED_MASK
  rw [show (0x0000FFFF : Nat) = 2 ^ 16 - 1 from rfl, Nat.and_pow_two_sub_one_eq_mod]

theorem alignment_penalty_le_one (data_addr : Nat) : alignment_penalty data_addr ≤ 1 := by
  unfold alignment_penalty
  split_ifs <;> omega

theorem alignment_penalty_add_pages (data_addr c : Nat) :
    alignment_penalty (u32 (data_addr + c * 65536)) = alignment_penalty data_addr := by
  rw [alignment_penalty_eq, alignment_penalty_eq]
  have : u32 (data_addr + c * 65536) % 65536 = data_addr % 65536 := by
    unfold u32
    omega
  rw [this]

theorem ceil_div_step (r m : Nat) (hm : 0 < m) (hr : 0 < r) :
    (r + m - 1) / m = (r - MIN r m + m - 1) / m + 1 := by
  unfold MIN
  split_ifs with h
  · have h1 : (r + m - 1) / m = 1 := by
      apply Nat.div_eq_of_lt_le <;> omega
    have h2 : (r - r + m - 1) / m = 0 := by
      apply Nat.div_eq_of_lt
      omega
    omega
  · have : r + m - 1 = (r - m + m - 1) + m := by omega
    rw [this, Nat.add_div_right _ hm]

theorem process_segment_data_trace (env : Env) (load_addr data_addr data_len : Nat)
    (do_load : Bool) (w : World) :
    (process_segment_data env load_addr data_addr data_len do_load w).2.trace =
      w.trace ++ chunk_events env load_addr data_addr data_len do_load := by
  unfold process_segment_data chunk_events
  cases do_load
  · simp
  · cases h : env.bootloader_mmap data_addr data_len <;> simp [memcpy, h]

theorem chunk_events_count (env : Env) (load_addr data_addr data_len : Nat) (do_load : Bool) :
    (chunk_events env load_addr data_addr data_len do_load).countP Event.is_mmap
        = (if do_load = true then 1 else 0)
      ∧ (chunk_events env load_addr data_addr data_len do_load).countP Event.is_munmap
        = (chunk_events env load_addr data_addr data_len do_load).countP Event.is_mmap_ok := by
  unfold chunk_events
  cases do_load
  · simp
  · cases h : env.bootloader_mmap data_addr data_len <;>
      simp [h, List.countP_cons, Event.is_mmap, Event.is_munmap, Event.is_mmap_ok]

theorem process_segment_loop_zero (env : Env) (fap : flash_area) (load_addr : Nat)
    (do_load : Bool) (free fuel data_addr : Nat) (rc : Int) (w : World) :
    process_segment_loop env fap load_addr do_load free (fuel + 1) data_addr 0 rc w
      = some (rc, w) := by
  rw [process_segment_loop_succ]
  simp

theorem process_segment_loop_runs (env : Env) (fap : flash_area) (load_addr : Nat)
    (do_load : Bool) (free p c m : Nat) (hm : 0 < m) (hmc : m = c * 65536)
    (hmax : ∀ a, alignment_penalty a = p → max_chunk free a = m) (fuel : Nat) :
    ∀ (data_addr remain : Nat) (rc : Int) (w : World),
      alignment_penalty data_addr = p →
      (fuel ≤ (remain + m - 1) / m →
        process_segment_loop env fap load_addr do_load free fuel data_addr remain rc w = none)
      ∧ ((remain + m - 1) / m < fuel →
        ∃ rc1 w1 l,
          process_segment_loop env fap load_addr do_load free fuel data_addr remain rc w
            = some (rc1, w1)
          ∧ w1.trace = w.trace ++ l
          ∧ l.countP Event.is_mmap = (if do_load = true then (remain + m - 1) / m else 0)
          ∧ l.countP Event.is_munmap = l.countP Event.is_mmap_ok) := by
  induction fuel with
  | zero =>
    intro data_addr remain rc w _
    exact ⟨fun _ => rfl, fun h => absurd h (Nat.not_lt_zero _)⟩
  | succ n ih =>
    intro data_addr remain rc w hpen
    have hmax : max_chunk free data_addr = m := hmax data_addr hpen
    rcases Nat.eq_zero_or_pos remain with h0 | hpos
    · subst h0
      have hk : (0 + m - 1) / m = 0 := by
        apply Nat.div_eq_of_lt
        omega
      rw [hk, process_segment_loop_zero]
      refine ⟨fun h => absurd h (by omega), fun _ => ⟨rc, w, [], rfl, by simp, ?_, rfl⟩⟩
      simp
    · rw [process_segment_loop_succ, if_pos hpos, hmax, ceil_div_step remain m hm hpos]
      obtain ⟨hc1, hc2⟩ := chunk_events_count env load_addr (u32 (fap.fa_off + data_addr))
        (MIN remain m) do_load
      have htr := process_segment_data_trace env load_addr (u32 (fap.fa_off + data_addr))
        (MIN remain m) do_load w
      by_cases hlt : remain < m
      · -- the last chunk: nothing remains afterwards
        have hmin : MIN remain m = remain := by
          unfold MIN
          rw [if_pos hlt]
        rw [hmin] at hc1 hc2 htr ⊢
        have hk : (remain - remain + m - 1) / m = 0 := by
          apply Nat.div_eq_of_lt
          omega
        rw [hk, Nat.sub_self]
        constructor
        · intro hn
          have : n = 0 := by omega
          subst this
          rfl
        · intro hn
          obtain ⟨n1, rfl⟩ : ∃ n1, n = n1 + 1 := ⟨n - 1, by omega⟩
          rw [process_segment_loop_zero]
          refine ⟨_, _, _, rfl, htr, ?_, hc2⟩
          rw [hc1]
      · -- a full chunk: the offset moves by whole pages and keeps its alignment
        have hmin : MIN remain m = m := by
          unfold MIN
          rw [if_neg hlt]
        rw [hmin] at hc1 hc2 htr ⊢
        have hpen1 : alignment_penalty (u32 (data_addr + m)) = p := by
          rw [hmc, alignment_penalty_add_pages, hpen]
        obtain ⟨ih1, ih2⟩ := ih (u32 (data_addr + m)) (remain - m)
          (process_segment_data env load_addr (u32 (fap.fa_off + data_addr)) m do_load w).1
          (process_segment_data env load_addr (u32 (fap.fa_off + data_addr)) m do_load w).2 hpen1
        constructor
        · intro hn
          exact ih1 (by omega)
        · intro hn
          obtain ⟨rc1, w1, l, hrun, htr1, hcnt, hpair⟩ := ih2 (by omega)
          refine ⟨rc1, w1, chunk_events env load_addr (u32 (fap.fa_off + data_addr)) m do_load
            ++ l, hrun, ?_, ?_, ?_⟩
          · rw [htr1, htr, List.append_assoc]
          · rw [List.countP_append, hc1, hcnt]
            split_ifs <;> omega
          · rw [List.countP_append, List.countP_append, hc2, hpair]

theorem max_chunk_pages (free data_addr : Nat) :
    max_chunk free data_addr
      = sub32 free (alignment_penalty data_addr) % 65536 * 65536 := by
  unfold max_chunk u32 SPI_FLASH_MMU_PAGE_SIZE
  omega

theorem max_chunk_of_le (free data_addr : Nat) (h1 : 1 ≤ free) (h32 : free < 2 ^ 32) :
    max_chunk free data_addr = (free - alignment_penalty data_addr) * 65536 % 2 ^ 32 := by
  have hp := alignment_penalty_le_one data_addr
  unfold max_chunk u32 sub32 SPI_FLASH_MMU_PAGE_SIZE
  generalize alignment_penalty data_addr = p at *
  have : (free + 2 ^ 32 - p % 2 ^ 32) % 2 ^ 32 = free - p := by omega
  rw [this]

theorem max_chunk_congr (free a b : Nat) (h : alignment_penalty a = alignment_penalty b) :
    max_chunk free a = max_chunk free b := by
  unfold max_chunk
  rw [h]

theorem process_segment_of_valid (soc : Soc) (env : Env) (fuel : Nat) (fap : flash_area)
    (offset : Nat) (header : esp_image_segment_header_t) (w : World)
    (hread : env.flash_area_read offset sizeof_esp_image_segment_header_t = 0)
    (hvalid : verify_segment_header soc (read_segment_header env fap offset)
      (u32 (fap.fa_off + u32 (offset + sizeof_esp_image_segment_header_t))) = ESP_OK) :
    process_segment soc env fuel fap offset header w =
      (process_segment_loop env fap (read_segment_header env fap offset).load_addr
        (should_load soc (read_segment_header env fap offset).load_addr)
        (u32 env.bootloader_mmap_get_free_pages) fuel
        (u32 (offset + sizeof_esp_image_segment_header_t))
        (read_segment_header env fap offset).data_len 0
        ((w.emit (Event.flash_area_read offset sizeof_esp_image_segment_header_t 0)).emit
          (Event.log_inf (Log.segment_info (read_segment_header env fap offset).data_len
            (u32 (offset + sizeof_esp_image_segment_header_t))
            (read_segment_header env fap offset).load_addr)))).map
        (fun r => (0, read_segment_header env fap offset, r.2)) := by
  unfold process_segment
  simp only [hread, hvalid, ne_eq, not_true_eq_false, if_false]
  cases process_segment_loop env fap (read_segment_header env fap offset).load_addr
    (should_load soc (read_segment_header env fap offset).load_addr)
    (u32 env.bootloader_mmap_get_free_pages) fuel
    (u32 (offset + sizeof_esp_image_segment_header_t))
    (read_segment_header env fap offset).data_len 0
    ((w.emit (Event.flash_area_read offset sizeof_esp_image_segment_header_t 0)).emit
      (Event.log_inf (Log.segment_info (read_segment_header env fap offset).data_len
        (u32 (offset + sizeof_esp_image_segment_header_t))
        (read_segment_header env fap offset).load_addr))) <;> rfl

theorem set_cache_events_split (soc : Soc) (env : Env)
    (drom_addr drom_load_addr drom_size irom_addr irom_load_addr irom_size entry_addr : Nat) :
    ∃ last, last.is_table_write = false ∧
      set_cache_events soc env drom_addr drom_load_addr drom_size irom_addr irom_load_addr
          irom_size entry_addr
        = [Event.Cache_Read_Disable 0, Event.Cache_Flush 0]
          ++ clear_events soc soc.DPORT_FLASH_MMU_TABLE_SIZE 0
          ++ ([mmu_set_call env 0 drom_addr drom_load_addr drom_size,
                mmu_set_call env 1 drom_addr drom_load_addr drom_size,
                mmu_set_call env 0 irom_addr irom_load_addr irom_size,
                mmu_set_call env 1 irom_addr irom_load_addr irom_size]
              ++ [Event.cache_ctrl1_clr_bit 0, Event.cache_ctrl1_clr_bit 1])
          ++ [Event.Cache_Read_Enable 0, last] := by
  unfold set_cache_events mmu_set_call
  simp only [List.append_assoc, List.cons_append, List.nil_append]
  refine ⟨_, ?_, rfl⟩
  split_ifs <;> rfl

theorem is_programming_clear_events (soc : Soc) (n i : Nat) :
    ∀ e ∈ clear_events soc n i, e.is_programming = false := by
  intro e he
  obtain ⟨k, _, rfl⟩ := (mem_clear_events soc n i e).1 he
  rfl

theorem unpack_segments_succ (soc : Soc) (fap : flash_area) (data : esp_image_metadata_t)
    (n i : Nat) (r : Regions) (w : World) (h : i < ESP_IMAGE_MAX_SEGMENTS) :
    unpack_segments soc fap data (n + 1) i r w =
      unpack_segments soc fap data n (i + 1)
        (unpack_segment soc fap (data.segments ⟨i, h⟩) (data.segment_data ⟨i, h⟩) i r w).1
        (unpack_segment soc fap (data.segments ⟨i, h⟩) (data.segment_data ⟨i, h⟩) i r w).2 := by
  rw [unpack_segments, dif_pos h]

theorem unpack_segment_irom (soc : Soc) (fap : flash_area)
    (header : esp_image_segment_header_t) (segment_data i : Nat) (r : Regions) (w : World) :
    (unpack_segment soc fap header segment_data i r w).1.irom =
      if in_irom soc header then
        (u32 (segment_data + fap.fa_off), header.load_addr, header.data_len)
      else r.irom := by
  unfold unpack_segment in_irom Regions.irom
  split_ifs <;> rfl

theorem unpack_segment_drom (soc : Soc) (fap : flash_area)
    (header : esp_image_segment_header_t) (segment_data i : Nat) (r : Regions) (w : World) :
    (unpack_segment soc fap header segment_data i r w).1.drom =
      if in_drom soc header then
        (u32 (segment_data + fap.fa_off), header.load_addr, header.data_len)
      else r.drom := by
  unfold unpack_segment in_drom Regions.drom
  split_ifs <;> rfl

theorem unpack_segment_trace (soc : Soc) (fap : flash_area)
    (header : esp_image_segment_header_t) (segment_data i : Nat) (r : Regions) (w : World) :
    (unpack_segment soc fap header segment_data i r w).2.trace
      = w.trace ++ unpack_segment_events soc header i r := by
  unfold unpack_segment unpack_segment_events in_irom in_drom
  split_ifs <;> simp_all

theorem irom_log_mem_unpack_segment_events (soc : Soc) (header : esp_image_segment_header_t)
    (i : Nat) (r : Regions) (h : in_irom soc header) (hr : r.irom.1 ≠ 0) :
    Event.log_err Log.irom_mapping_failed ∈ unpack_segment_events soc header i r := by
  have hr1 : r.irom_addr ≠ 0 := hr
  simp [unpack_segment_events, h, hr1]

theorem drom_log_mem_unpack_segment_events (soc : Soc) (header : esp_image_segment_header_t)
    (i : Nat) (r : Regions) (h : in_drom soc header) (hr : r.drom.1 ≠ 0) :
    Event.log_err Log.drom_mapping_failed ∈ unpack_segment_events soc header i r := by
  have hr1 : r.drom_addr ≠ 0 := hr
  simp [unpack_segment_events, h, hr1]

/-- The scan of `unpack_load_app` over segments `i, ..., i + n - 1`, seen through one mapped
class: `cls` tells whether a header is of the class, `get` reads the descriptor recorded for
the class, `log` is the error logged on a conflict. -/
theorem unpack_segments_class (soc : Soc) (fap : flash_area) (data : esp_image_metadata_t)
    (cls : esp_image_segment_header_t → Prop) [DecidablePred cls]
    (get : Regions → Nat × Nat × Nat) (log : Event)
    (hget : ∀ header segment_data i r w,
      get (unpack_segment soc fap header segment_data i r w).1 =
        if cls header then (u32 (segment_data + fap.fa_off), header.load_addr, header.data_len)
        else get r)
    (hlog : ∀ header i r, cls header → (get r).1 ≠ 0 →
      log ∈ unpack_segment_events soc header i r)
    (n : Nat) :
    ∀ (i : Nat) (r : Regions) (w : World), i + n ≤ ESP_IMAGE_MAX_SEGMENTS →
      ∃ r1 w1 l, unpack_segments soc fap data n i r w = (some r1, w1)
        ∧ w1.trace = w.trace ++ l
        ∧ ((∀ k : Fin ESP_IMAGE_MAX_SEGMENTS, i ≤ k.val → k.val < i + n →
              ¬ cls (data.segments k)) → get r1 = get r)
        ∧ (∀ j : Fin ESP_IMAGE_MAX_SEGMENTS, i ≤ j.val → j.val < i + n →
            cls (data.segments j) →
            (∀ k : Fin ESP_IMAGE_MAX_SEGMENTS, j.val < k.val → k.val < i + n →
              ¬ cls (data.segments k)) →
            get r1 = descriptor fap data j)
        ∧ ((∀ k : Fin ESP_IMAGE_MAX_SEGMENTS, i ≤ k.val → k.val < i + n →
              cls (data.segments k) → (descriptor fap data k).1 ≠ 0) →
            ((get r).1 ≠ 0 →
              (∃ x : Fin ESP_IMAGE_MAX_SEGMENTS, i ≤ x.val ∧ x.val < i + n
                ∧ cls (data.segments x)) → log ∈ l)
            ∧ ((∃ a b : Fin ESP_IMAGE_MAX_SEGMENTS, i ≤ a.val ∧ a.val < b.val ∧ b.val < i + n
                ∧ cls (data.segments a) ∧ cls (data.segments b)) → log ∈ l)) := by
  induction n with
  | zero =>
    intro i r w _
    refine ⟨r, w, [], rfl, by simp, fun _ => rfl, ?_, fun _ => ⟨?_, ?_⟩⟩
    · intro j h1 h2
      omega
    · rintro _ ⟨x, h1, h2, _⟩
      omega
    · rintro ⟨a, b, h1, h2, h3, _⟩
      omega
  | succ n ih =>
    intro i r w hin
    have h : i < ESP_IMAGE_MAX_SEGMENTS := by omega
    obtain ⟨r1, w1, l, hrun, htr, hkeep, hlast, hnz⟩ := ih (i + 1)
      (unpack_segment soc fap (data.segments ⟨i, h⟩) (data.segment_data ⟨i, h⟩) i r w).1
      (unpack_segment soc fap (data.segments ⟨i, h⟩) (data.segment_data ⟨i, h⟩) i r w).2
      (by omega)
    have hstep := hget (data.segments ⟨i, h⟩) (data.segment_data ⟨i, h⟩) i r w
    refine ⟨r1, w1, unpack_segment_events soc (data.segments ⟨i, h⟩) i r ++ l, ?_, ?_, ?_, ?_, ?_⟩
    · rw [unpack_segments_succ soc fap data n i r w h, hrun]
    · rw [htr, unpack_segment_trace, List.append_assoc]
    · intro hno
      rw [hkeep (fun k h1 h2 => hno k (by omega) (by omega)), hstep,
        if_neg (hno ⟨i, h⟩ (Nat.le_refl _) (by simp))]
    · intro j h1 h2 hj hafter
      rcases Nat.eq_or_lt_of_le h1 with heq | hlt
      · have hji : j = ⟨i, h⟩ := Fin.ext heq.symm
        subst hji
        rw [hkeep (fun k h3 h4 => hafter k (by simpa using h3) (by omega)), hstep, if_pos hj]
        rfl
      · exact hlast j hlt (by omega) hj (fun k h3 h4 => hafter k h3 (by omega))
    · intro hnonzero
      have hnext : (get (unpack_segment soc fap (data.segments ⟨i, h⟩)
          (data.segment_data ⟨i, h⟩) i r w).1).1 ≠ 0 ∨ ((get r).1 = 0 ∧ ¬ cls (data.segments ⟨i, h⟩)) := by
        rw [hstep]
        by_cases hc : cls (data.segments ⟨i, h⟩)
        · left
          rw [if_pos hc]
          exact hnonzero ⟨i, h⟩ (Nat.le_refl _) (by simp) hc
        · rw [if_neg hc]
          by_cases hz : (get r).1 = 0
          · exact Or.inr ⟨hz, hc⟩
          · exact Or.inl hz
      obtain ⟨hb, hc⟩ := hnz (fun k h1 h2 => hnonzero k (by omega) (by omega))
      constructor
      · rintro hr ⟨x, h1, h2, hx⟩
        rcases Nat.eq_or_lt_of_le h1 with heq | hlt
        · have hxi : x = ⟨i, h⟩ := Fin.ext heq.symm
          subst hxi
          exact List.mem_append_left _ (hlog _ i r hx hr)
        · rcases hnext with hn | ⟨hz, _⟩
          · exact List.mem_append_right _ (hb hn ⟨x, hlt, by omega, hx⟩)
          · exact absurd hz hr
      · rintro ⟨a, b, h1, h2, h3, ha, hbb⟩
        rcases Nat.eq_or_lt_of_le h1 with heq | hlt
        · have hai : a = ⟨i, h⟩ := Fin.ext heq.symm
          subst hai
          rcases hnext with hn | ⟨_, hnc⟩
          · exact List.mem_append_right _ (hb hn ⟨b, by simpa using h2, by omega, hbb⟩)
          · exact absurd ha hnc
        · exact List.mem_append_right _ (hc ⟨a, b, hlt, h2, by omega, ha, hbb⟩)

theorem should_map_iff (soc : Soc) (a : Nat) :
    should_map soc a = true ↔
      (soc.SOC_IROM_LOW ≤ a ∧ a < soc.SOC_IROM_HIGH)
        ∨ (soc.SOC_DROM_LOW ≤ a ∧ a < soc.SOC_DROM_HIGH) := by
  simp [should_map]

theorem process_segment_loop_not_loaded (env : Env) (fap : flash_area) (load_addr free : Nat)
    (fuel : Nat) :
    ∀ (data_addr remain : Nat) (rc : Int) (w : World) (r : Int × World),
      process_segment_loop env fap load_addr false free fuel data_addr remain rc w = some r →
      r.2 = w := by
  induction fuel with
  | zero =>
    intro data_addr remain rc w r h
    simp [process_segment_loop] at h
  | succ n ih =>
    intro data_addr remain rc w r h
    rw [process_segment_loop_succ] at h
    split_ifs at h with hpos
    · exact ih _ _ _ _ r h
    · simp only [Option.some.injEq] at h
      rw [← h]

theorem process_segment_not_loaded (soc : Soc) (env : Env) (fap : flash_area)
    (offset : Nat) (header : esp_image_segment_header_t) (w : World)
    (hread : env.flash_area_read offset sizeof_esp_image_segment_header_t = 0)
    (hvalid : verify_segment_header soc (read_segment_header env fap offset)
      (u32 (fap.fa_off + u32 (offset + sizeof_esp_image_segment_header_t))) = ESP_OK)
    (hload : should_load soc (read_segment_header env fap offset).load_addr = false)
    (hpos : 0 < max_chunk (u32 env.bootloader_mmap_get_free_pages)
      (u32 (offset + sizeof_esp_image_segment_header_t))) :
    ∃ fuel,
      process_segment soc env fuel fap offset header w
        = some (0, read_segment_header env fap offset,
            (w.emit (Event.flash_area_read offset sizeof_esp_image_segment_header_t 0)).emit
              (Event.log_inf (Log.segment_info (read_segment_header env fap offset).data_len
                (u32 (offset + sizeof_esp_image_segment_header_t))
                (read_segment_header env fap offset).load_addr))) := by
  have hruns := process_segment_loop_runs env fap (read_segment_header env fap offset).load_addr
    (should_load soc (read_segment_header env fap offset).load_addr) (u32 env.bootloader_mmap_get_free_pages)
    (alignment_penalty (u32 (offset + sizeof_esp_image_segment_header_t)))
    (sub32 (u32 env.bootloader_mmap_get_free_pages)
      (alignment_penalty (u32 (offset + sizeof_esp_image_segment_header_t))) % 65536)
    (max_chunk (u32 env.bootloader_mmap_get_free_pages)
      (u32 (offset + sizeof_esp_image_segment_header_t))) hpos (max_chunk_pages _ _)
    (fun a ha => max_chunk_congr _ a _ ha)
  have hsome := (hruns _ (u32 (offset + sizeof_esp_image_segment_header_t))
    (read_segment_header env fap offset).data_len 0
    ((w.emit (Event.flash_area_read offset sizeof_esp_image_segment_header_t 0)).emit
      (Event.log_inf (Log.segment_info (read_segment_header env fap offset).data_len
        (u32 (offset + sizeof_esp_image_segment_header_t))
        (read_segment_header env fap offset).load_addr))) rfl).2 (Nat.lt_add_one _)
  generalize ((read_segment_header env fap offset).data_len
    + max_chunk (u32 env.bootloader_mmap_get_free_pages)
      (u32 (offset + sizeof_esp_image_segment_header_t)) - 1)
    / max_chunk (u32 env.bootloader_mmap_get_free_pages)
      (u32 (offset + sizeof_esp_image_segment_header_t)) + 1 = fuel at hsome
  obtain ⟨rc1, w1, l, hrun, -⟩ := hsome
  rw [hload] at hrun
  have hw := process_segment_loop_not_loaded env fap _ _ fuel _ _ _ _ (rc1, w1) hrun
  simp only at hw
  refine ⟨fuel, ?_⟩
  rw [process_segment_of_valid soc env fuel fap offset header w hread hvalid, hload, hrun, hw]
  rfl

theorem bootloader_cache_pages_to_map_zero : bootloader_cache_pages_to_map 0 0 = 0 := by
  decide

theorem not_programmed_zero (env : Env) (vaddr i : Nat) : ¬ programmed env vaddr 0 i := by
  unfold programmed
  omega

theorem filter_is_programming_clear_events (soc : Soc) (n i : Nat) :
    (clear_events soc n i).filter Event.is_programming = [] := by
  rw [List.filter_eq_nil_iff]
  intro e he
  rw [is_programming_clear_events soc n i e he]
  simp

theorem set_cache_events_no_regions (soc : Soc) (env : Env) (entry_addr : Nat)
    (h0 : env.cache_flash_mmu_set 0 0 0 0 64 0 = 0)
    (h1 : env.cache_flash_mmu_set 1 0 0 0 64 0 = 0) :
    set_cache_events soc env 0 0 0 0 0 0 entry_addr
      = [Event.Cache_Read_Disable 0, Event.Cache_Flush 0]
        ++ clear_events soc soc.DPORT_FLASH_MMU_TABLE_SIZE 0
        ++ [Event.cache_flash_mmu_set 0 0 0 0 64 0 0, Event.cache_flash_mmu_set 1 0 0 0 64 0 0,
            Event.cache_flash_mmu_set 0 0 0 0 64 0 0, Event.cache_flash_mmu_set 1 0 0 0 64 0 0,
            Event.cache_ctrl1_clr_bit 0, Event.cache_ctrl1_clr_bit 1,
            Event.Cache_Read_Enable 0, Event.entry entry_addr] := by
  unfold set_cache_events
  simp only [Nat.zero_and, bootloader_cache_pages_to_map_zero, h0, h1]
  rfl

theorem unpack_segment_neither (soc : Soc) (fap : flash_area)
    (header : esp_image_segment_header_t) (segment_data i : Nat) (r : Regions) (w : World)
    (hi : ¬ in_irom soc header) (hd : ¬ in_drom soc header) :
    unpack_segment soc fap header segment_data i r w = (r, w) := by
  unfold in_irom at hi
  unfold in_drom at hd
  unfold unpack_segment
  simp only [hi, hd, if_false]

theorem read_offsets_append (l1 l2 : List Event) :
    read_offsets (l1 ++ l2) = read_offsets l1 ++ read_offsets l2 := by
  simp [read_offsets, List.filterMap_append]

theorem read_offsets_chunk_events (env : Env) (load_addr data_addr data_len : Nat)
    (do_load : Bool) : read_offsets (chunk_events env load_addr data_addr data_len do_load) = [] := by
  unfold chunk_events
  split_ifs <;> rfl

theorem process_segment_loop_reads (env : Env) (fap : flash_area) (load_addr : Nat)
    (do_load : Bool) (free fuel : Nat) :
    ∀ (data_addr remain : Nat) (rc : Int) (w : World) (r : Int × World),
      process_segment_loop env fap load_addr do_load free fuel data_addr remain rc w = some r →
      ∃ l, r.2.trace = w.trace ++ l ∧ read_offsets l = [] := by
  induction fuel with
  | zero =>
    intro data_addr remain rc w r h
    simp [process_segment_loop] at h
  | succ n ih =>
    intro data_addr remain rc w r h
    rw [process_segment_loop_succ] at h
    split_ifs at h with hpos
    · obtain ⟨l, hl, hr⟩ := ih _ _ _ _ r h
      refine ⟨chunk_events env load_addr (u32 (fap.fa_off + data_addr))
        (MIN remain (max_chunk free data_addr)) do_load ++ l, ?_, ?_⟩
      · rw [hl, process_segment_data_trace, List.append_assoc]
      · rw [read_offsets_append, read_offsets_chunk_events, hr]
        rfl
    · simp only [Option.some.injEq] at h
      rw [← h]
      exact ⟨[], by simp, rfl⟩

theorem process_segment_reads (soc : Soc) (env : Env) (fuel : Nat) (fap : flash_area)
    (offset : Nat) (header : esp_image_segment_header_t) (w : World)
    (r : Int × esp_image_segment_header_t × World)
    (h : process_segment soc env fuel fap offset header w = some r) :
    (r.2.1 = if env.flash_area_read offset sizeof_esp_image_segment_header_t = 0
        then read_segment_header env fap offset else header)
    ∧ ∃ l, r.2.2.trace
        = w.trace ++ Event.flash_area_read offset sizeof_esp_image_segment_header_t
            (env.flash_area_read offset sizeof_esp_image_segment_header_t) :: l
      ∧ read_offsets l = [] := by
  by_cases hread : env.flash_area_read offset sizeof_esp_image_segment_header_t = 0
  · rw [if_pos hread, hread]
    by_cases hv : verify_segment_header soc (read_segment_header env fap offset)
        (u32 (fap.fa_off + u32 (offset + sizeof_esp_image_segment_header_t))) = ESP_OK
    · rw [process_segment_of_valid soc env fuel fap offset header w hread hv] at h
      cases hloop : process_segment_loop env fap (read_segment_header env fap offset).load_addr
        (should_load soc (read_segment_header env fap offset).load_addr)
        (u32 env.bootloader_mmap_get_free_pages) fuel
        (u32 (offset + sizeof_esp_image_segment_header_t))
        (read_segment_header env fap offset).data_len 0
        ((w.emit (Event.flash_area_read offset sizeof_esp_image_segment_header_t 0)).emit
          (Event.log_inf (Log.segment_info (read_segment_header env fap offset).data_len
            (u32 (offset + sizeof_esp_image_segment_header_t))
            (read_segment_header env fap offset).load_addr))) with
      | none =>
        rw [hloop] at h
        exact absurd h (by simp)
      | some x =>
        rw [hloop] at h
        simp only [Option.map_some', Option.some.injEq] at h
        rw [← h]
        obtain ⟨l, hl, hr⟩ := process_segment_loop_reads env fap _ _ _ fuel _ _ _ _ x hloop
        refine ⟨rfl, Event.log_inf (Log.segment_info (read_segment_header env fap offset).data_len
          (u32 (offset + sizeof_esp_image_segment_header_t))
          (read_segment_header env fap offset).load_addr) :: l, ?_, ?_⟩
        · simp only at hl ⊢
          rw [hl]
          simp
        · rw [show (Event.log_inf (Log.segment_info (read_segment_header env fap offset).data_len
            (u32 (offset + sizeof_esp_image_segment_header_t))
            (read_segment_header env fap offset).load_addr) :: l)
            = [Event.log_inf (Log.segment_info (read_segment_header env fap offset).data_len
            (u32 (offset + sizeof_esp_image_segment_header_t))
            (read_segment_header env fap offset).load_addr)] ++ l from rfl,
            read_offsets_append, hr]
          rfl
    · unfold process_segment at h
      simp only [hread, ne_eq, not_true_eq_false, if_false] at h
      rw [if_pos hv] at h
      simp only [Option.some.injEq] at h
      rw [← h]
      refine ⟨rfl, [Event.log_inf (Log.segment_info (read_segment_header env fap offset).data_len
        (u32 (offset + sizeof_esp_image_segment_header_t))
        (read_segment_header env fap offset).load_addr),
        Event.log_err Log.segment_header_verification_failed], ?_, rfl⟩
      simp
  · rw [if_neg hread]
    unfold process_segment at h
    simp only [ne_eq, hread, not_false_eq_true, if_true, Option.some.injEq] at h
    rw [← h]
    refine ⟨rfl, [Event.log_err Log.error_in_flash_read], ?_, rfl⟩
    simp

theorem span_self (len : Nat → Nat) (i : Nat) : span len i i = 0 := by
  simp [span]

theorem span_succ_bot (len : Nat → Nat) (i k : Nat) (h : i < k) :
    span len i k = sizeof_esp_image_segment_header_t + len i + span len (i + 1) k := by
  unfold span
  rw [Finset.sum_eq_sum_Ico_succ_bot h]

theorem load_segments_succ (soc : Soc) (env : Env) (fuel : Nat) (fap : flash_area)
    (n i next_addr : Nat) (data : esp_image_metadata_t) (w : World)
    (h : i < ESP_IMAGE_MAX_SEGMENTS) (r : Int × esp_image_segment_header_t × World)
    (hr : process_segment soc env fuel fap next_addr (data.segments ⟨i, h⟩) w = some r) :
    load_segments soc env fuel fap (n + 1) i next_addr data w =
      load_segments soc env fuel fap n (i + 1)
        (u32 (u32 (next_addr + sizeof_esp_image_segment_header_t) + r.2.1.data_len))
        { data with
          segments := fun j => if j = ⟨i, h⟩ then r.2.1 else data.segments j
          segment_data := fun j =>
            if j = ⟨i, h⟩ then u32 (next_addr + sizeof_esp_image_segment_header_t)
            else data.segment_data j }
        r.2.2 := by
  rw [load_segments, dif_pos h, hr]

theorem load_segments_some (soc : Soc) (env : Env) (fuel : Nat) (fap : flash_area)
    (n i next_addr : Nat) (data : esp_image_metadata_t) (w : World)
    (x : Nat × esp_image_metadata_t) (w1 : World)
    (hrun : load_segments soc env fuel fap (n + 1) i next_addr data w = some (some x, w1)) :
    ∃ (h : i < ESP_IMAGE_MAX_SEGMENTS) (r : Int × esp_image_segment_header_t × World),
      process_segment soc env fuel fap next_addr (data.segments ⟨i, h⟩) w = some r := by
  by_cases h : i < ESP_IMAGE_MAX_SEGMENTS
  · refine ⟨h, ?_⟩
    cases hr : process_segment soc env fuel fap next_addr (data.segments ⟨i, h⟩) w with
    | none =>
      rw [load_segments, dif_pos h, hr] at hrun
      exact absurd hrun (by simp)
    | some r => exact ⟨r, rfl⟩
  · rw [load_segments, dif_neg h] at hrun
    simp at hrun

theorem u32_lt (n : Nat) : u32 n < 2 ^ 32 := by
  unfold u32
  omega

theorem load_segments_layout (soc : Soc) (env : Env) (fuel : Nat) (fap : flash_area)
    (n : Nat) :
    ∀ (i next : Nat) (data : esp_image_metadata_t) (w : World)
      (x : Nat × esp_image_metadata_t) (w1 : World),
      next < 2 ^ 32 →
      load_segments soc env fuel fap n i next data w = some (some x, w1) →
      (∀ k : Fin ESP_IMAGE_MAX_SEGMENTS, k.val < i →
          x.2.segments k = data.segments k ∧ x.2.segment_data k = data.segment_data k)
      ∧ (∀ k : Fin ESP_IMAGE_MAX_SEGMENTS, i ≤ k.val → k.val < i + n →
          x.2.segment_data k
            = u32 (next + span (segment_len x.2) i k.val + sizeof_esp_image_segment_header_t)
          ∧ (env.flash_area_read (u32 (next + span (segment_len x.2) i k.val))
                sizeof_esp_image_segment_header_t = 0 →
              x.2.segments k
                = read_segment_header env fap (u32 (next + span (segment_len x.2) i k.val))))
      ∧ ∃ l, w1.trace = w.trace ++ l
          ∧ read_offsets l
            = (List.range n).map (fun t => u32 (next + span (segment_len x.2) i (i + t))) := by
  have h8 : sizeof_esp_image_segment_header_t = 8 := rfl
  induction n with
  | zero =>
    intro i next data w x w1 _ hrun
    simp only [load_segments, Option.some.injEq, Prod.mk.injEq] at hrun
    obtain ⟨hx, hw⟩ := hrun
    subst hx hw
    refine ⟨fun k _ => ⟨rfl, rfl⟩, fun k h1 h2 => absurd h2 (by omega), [], by simp, rfl⟩
  | succ n ih =>
    intro i next data w x w1 hnext hrun
    obtain ⟨h, r, hr⟩ := load_segments_some soc env fuel fap n i next data w x w1 hrun
    rw [load_segments_succ soc env fuel fap n i next data w h r hr] at hrun
    obtain ⟨hkeep, hlay, l1, htr1, hreads1⟩ := ih _ _ _ _ x w1 (u32_lt _) hrun
    obtain ⟨hhdr, l0, htr0, hreads0⟩ := process_segment_reads soc env fuel fap next _ w r hr
    have hseg : x.2.segments ⟨i, h⟩ = r.2.1 := by
      rw [(hkeep ⟨i, h⟩ (Nat.lt_succ_self i)).1]
      simp
    have hdat : x.2.segment_data ⟨i, h⟩ = u32 (next + sizeof_esp_image_segment_header_t) := by
      rw [(hkeep ⟨i, h⟩ (Nat.lt_succ_self i)).2]
      simp
    have hlen : segment_len x.2 i = r.2.1.data_len := by
      unfold segment_len
      rw [dif_pos h, hseg]
    have hnext0 : u32 (next + span (segment_len x.2) i i) = next := by
      rw [span_self]
      unfold u32
      omega
    have hstep : ∀ k, i < k →
        u32 (u32 (next + sizeof_esp_image_segment_header_t) + r.2.1.data_len)
            + span (segment_len x.2) (i + 1) k
          ≡ next + span (segment_len x.2) i k [MOD 2 ^ 32] := by
      intro k hk
      rw [span_succ_bot _ i k hk, hlen]
      unfold u32 Nat.ModEq
      omega
    refine ⟨?_, ?_, ?_⟩
    · intro k hk
      have hne : k ≠ ⟨i, h⟩ := by
        intro hc
        rw [hc] at hk
        exact absurd hk (Nat.lt_irrefl _)
      obtain ⟨h1, h2⟩ := hkeep k (by omega)
      rw [h1, h2]
      simp [hne]
    · intro k h1 h2
      rcases Nat.eq_or_lt_of_le h1 with heq | hlt
      · have hk : k = ⟨i, h⟩ := Fin.ext heq.symm
        subst hk
        refine ⟨?_, ?_⟩
        · rw [hdat]
          show _ = u32 (next + span (segment_len x.2) i i + _)
          rw [span_self, Nat.add_zero]
        · show env.flash_area_read (u32 (next + span (segment_len x.2) i i)) _ = 0 → _
          rw [hnext0]
          intro hread
          rw [hseg, hhdr, if_pos hread]
      · obtain ⟨h3, h4⟩ := hlay k hlt (by omega)
        have hmod := hstep k.val hlt
        have hu : u32 (u32 (u32 (next + sizeof_esp_image_segment_header_t) + r.2.1.data_len)
              + span (segment_len x.2) (i + 1) k.val)
            = u32 (next + span (segment_len x.2) i k.val) := hmod
        refine ⟨?_, ?_⟩
        · rw [h3]
          unfold u32 Nat.ModEq at *
          omega
        · rw [← hu]
          exact h4
    · refine ⟨Event.flash_area_read next sizeof_esp_image_segment_header_t
          (env.flash_area_read next sizeof_esp_image_segment_header_t) :: l0 ++ l1, ?_, ?_⟩
      · rw [htr1, htr0]
        simp
      · rw [show (Event.flash_area_read next sizeof_esp_image_segment_header_t
            (env.flash_area_read next sizeof_esp_image_segment_header_t) :: l0 ++ l1)
            = [Event.flash_area_read next sizeof_esp_image_segment_header_t
            (env.flash_area_read next sizeof_esp_image_segment_header_t)] ++ (l0 ++ l1) from rfl,
          read_offsets_append, read_offsets_append, hreads0, hreads1,
          List.range_succ_eq_map, List.map_cons, List.map_map]
        simp only [Nat.add_zero, hnext0, List.nil_append]
        show next :: _ = next :: _
        congr 1
        apply List.map_congr_left
        intro t _
        simp only [Function.comp, Nat.succ_eq_add_one]
        have hmod := hstep (i + 1 + t) (by omega)
        rw [show i + (t + 1) = i + 1 + t from by omega]
        exact hmod

theorem flash_le32_lt (env : Env) (a : Nat) : flash_le32 env a < 2 ^ 32 := by
  unfold flash_le32 flash_byte
  omega

theorem max_chunk_ge_page (free data_addr : Nat) (hlo : 2 ≤ free) (hhi : free < 65536) :
    65536 ≤ max_chunk free data_addr := by
  have hp := alignment_penalty_le_one data_addr
  rw [max_chunk_of_le free data_addr (by omega) (by omega)]
  generalize alignment_penalty data_addr = p at hp
  omega

theorem process_segment_returns (soc : Soc) (env : Env) (fap : flash_area) (offset : Nat)
    (header : esp_image_segment_header_t) (w : World)
    (hlo : 2 ≤ u32 env.bootloader_mmap_get_free_pages)
    (hhi : u32 env.bootloader_mmap_get_free_pages < 65536) :
    ∃ r, process_segment soc env 65537 fap offset header w = some r := by
  by_cases hread : env.flash_area_read offset sizeof_esp_image_segment_header_t = 0
  · by_cases hv : verify_segment_header soc (read_segment_header env fap offset)
        (u32 (fap.fa_off + u32 (offset + sizeof_esp_image_segment_header_t))) = ESP_OK
    · rw [process_segment_of_valid soc env 65537 fap offset header w hread hv]
      have hm := max_chunk_ge_page (u32 env.bootloader_mmap_get_free_pages)
        (u32 (offset + sizeof_esp_image_segment_header_t)) hlo hhi
      have hlen : (read_segment_header env fap offset).data_len < 2 ^ 32 :=
        flash_le32_lt env _
      have hruns := process_segment_loop_runs env fap
        (read_segment_header env fap offset).load_addr
        (should_load soc (read_segment_header env fap offset).load_addr)
        (u32 env.bootloader_mmap_get_free_pages)
        (alignment_penalty (u32 (offset + sizeof_esp_image_segment_header_t)))
        (sub32 (u32 env.bootloader_mmap_get_free_pages)
          (alignment_penalty (u32 (offset + sizeof_esp_image_segment_header_t))) % 65536)
        (max_chunk (u32 env.bootloader_mmap_get_free_pages)
          (u32 (offset + sizeof_esp_image_segment_header_t))) (by omega) (max_chunk_pages _ _)
        (fun a ha => max_chunk_congr _ a _ ha) 65537
        (u32 (offset + sizeof_esp_image_segment_header_t))
        (read_segment_header env fap offset).data_len 0
        ((w.emit (Event.flash_area_read offset sizeof_esp_image_segment_header_t 0)).emit
          (Event.log_inf (Log.segment_info (read_segment_header env fap offset).data_len
            (u32 (offset + sizeof_esp_image_segment_header_t))
            (read_segment_header env fap offset).load_addr))) rfl
      have hbound : ((read_segment_header env fap offset).data_len
          + max_chunk (u32 env.bootloader_mmap_get_free_pages)
            (u32 (offset + sizeof_esp_image_segment_header_t)) - 1)
          / max_chunk (u32 env.bootloader_mmap_get_free_pages)
            (u32 (offset + sizeof_esp_image_segment_header_t)) < 65537 := by
        rw [Nat.div_lt_iff_lt_mul (by omega)]
        generalize max_chunk (u32 env.bootloader_mmap_get_free_pages)
          (u32 (offset + sizeof_esp_image_segment_header_t)) = m at hm
        omega
      obtain ⟨rc1, w1, l, hrun, -⟩ := hruns.2 hbound
      rw [hrun]
      exact ⟨_, rfl⟩
    · unfold process_segment
      simp only [hread, ne_eq, not_true_eq_false, if_false]
      rw [if_pos hv]
      exact ⟨_, rfl⟩
  · unfold process_segment
    simp only [ne_eq, hread, not_false_eq_true, if_true]
    exact ⟨_, rfl⟩

theorem load_segments_returns (soc : Soc) (env : Env) (fap : flash_area)
    (hlo : 2 ≤ u32 env.bootloader_mmap_get_free_pages)
    (hhi : u32 env.bootloader_mmap_get_free_pages < 65536) (n : Nat) :
    ∀ (i next : Nat) (data : esp_image_metadata_t) (w : World),
      i + n ≤ ESP_IMAGE_MAX_SEGMENTS →
      ∃ x w1, load_segments soc env 65537 fap n i next data w = some (some x, w1) := by
  induction n with
  | zero =>
    intro i next data w _
    exact ⟨_, _, rfl⟩
  | succ n ih =>
    intro i next data w hin
    have h : i < ESP_IMAGE_MAX_SEGMENTS := by omega
    obtain ⟨r, hr⟩ := process_segment_returns soc env fap next (data.segments ⟨i, h⟩) w hlo hhi
    rw [load_segments_succ soc env 65537 fap n i next data w h r hr]
    exact ih _ _ _ _ (by omega)

theorem span_zero (len : Nat → Nat) (k : Nat) :
    span len 0 k = (Finset.range k).sum (fun j => sizeof_esp_image_segment_header_t + len j) := by
  unfold span
  rw [Finset.range_eq_Ico]

/-! ## Further lemmas on the loops and the launcher -/

/-- Whenever the maximum chunk, `(free_windows - alignment_penalty) * 64 KiB` in 32-bit
arithmetic with `alignment_penalty` 1 iff the flash offset is not window-aligned, is not
zero, the copy loop of `process_segment` ends after exactly `ceil(L / max_chunk)` iterations:
the bound `ceil(L / max_chunk)` on the evaluations of the loop condition is reached, the bound
`ceil(L / max_chunk) + 1` is not. Each iteration of a loadable segment issues one window
request (none is issued for a segment that is not loaded), and every granted window is
released. -/
theorem process_segment_loop_chunk_count (env : Env) (fap : flash_area) (load_addr : Nat)
    (do_load : Bool) (free data_addr L : Nat) (rc : Int) (w : World)
    (h1 : 1 ≤ free) (h32 : free < 2 ^ 32) (hpos : 0 < max_chunk free data_addr) :
    alignment_penalty data_addr = (if data_addr % 65536 ≠ 0 then 1 else 0)
    ∧ max_chunk free data_addr = (free - alignment_penalty data_addr) * 65536 % 2 ^ 32
    ∧ process_segment_loop env fap load_addr do_load free
        ((L + max_chunk free data_addr - 1) / max_chunk free data_addr) data_addr L rc w = none
    ∧ ∃ rc1 w1,
        process_segment_loop env fap load_addr do_load free
          ((L + max_chunk free data_addr - 1) / max_chunk free data_addr + 1) data_addr L rc w
            = some (rc1, w1)
        ∧ (events_since w w1).countP Event.is_mmap
          = (if do_load = true
              then (L + max_chunk free data_addr - 1) / max_chunk free data_addr else 0)
        ∧ (events_since w w1).countP Event.is_munmap
          = (events_since w w1).countP Event.is_mmap_ok := by
  have hruns := process_segment_loop_runs env fap load_addr do_load free
    (alignment_penalty data_addr) (sub32 free (alignment_penalty data_addr) % 65536)
    (max_chunk free data_addr) hpos (max_chunk_pages free data_addr)
    (fun a ha => max_chunk_congr free a data_addr ha)
  refine ⟨alignment_penalty_eq data_addr, max_chunk_of_le free data_addr h1 h32, ?_, ?_⟩
  · exact (hruns _ data_addr L rc w rfl).1 (Nat.le_refl _)
  · obtain ⟨rc1, w1, l, hrun, htr, hcnt, hpair⟩ :=
      (hruns _ data_addr L rc w rfl).2 (Nat.lt_succ_self _)
    refine ⟨rc1, w1, hrun, ?_, ?_⟩
    · rw [events_since_append w w1 l htr, hcnt]
    · rw [events_since_append w w1 l htr, hpair]

/-- The page-table programming calls among the events of `set_cache_and_start_app` are the
four calls for the data region and the instruction region, each for way 0 and way 1. -/
theorem filter_is_programming_set_cache_events (soc : Soc) (env : Env)
    (drom_addr drom_load_addr drom_size irom_addr irom_load_addr irom_size entry_addr : Nat) :
    (set_cache_events soc env drom_addr drom_load_addr drom_size irom_addr irom_load_addr
        irom_size entry_addr).filter Event.is_programming
      = [mmu_set_call env 0 drom_addr drom_load_addr drom_size,
         mmu_set_call env 1 drom_addr drom_load_addr drom_size,
         mmu_set_call env 0 irom_addr irom_load_addr irom_size,
         mmu_set_call env 1 irom_addr irom_load_addr irom_size] := by
  unfold set_cache_events mmu_set_call
  simp only [List.filter_append, filter_is_programming_clear_events]
  split_ifs <;> rfl

/-- A pass of the `for` loop of `esp_app_image_load` does not end when `process_segment`
does not. -/
theorem load_segments_stuck (soc : Soc) (env : Env) (fuel : Nat) (fap : flash_area)
    (n i next_addr : Nat) (data : esp_image_metadata_t) (w : World)
    (hi : i < ESP_IMAGE_MAX_SEGMENTS)
    (h : process_segment soc env fuel fap next_addr (data.segments ⟨i, hi⟩) w = none) :
    load_segments soc env fuel fap (n + 1) i next_addr data w = none := by
  rw [load_segments, dif_pos hi, h]

/-- When the flash area opens and the image header is read, `esp_app_image_load` does not
return if its `for` loop does not end. -/
theorem esp_app_image_load_stuck (soc : Soc) (env : Env) (fuel : Nat) (slot : Int)
    (hdr_offset : Nat) (data : esp_image_metadata_t) (w : World)
    (hopen : env.flash_area_open (env.flash_area_id_from_image_slot slot) = 0)
    (hread : env.flash_area_read hdr_offset sizeof_esp_image_header_t = 0)
    (h : ∀ (d : esp_image_metadata_t) (w1 : World),
      load_segments soc env fuel (env.fap (env.flash_area_id_from_image_slot slot))
        (read_image_header env (env.fap (env.flash_area_id_from_image_slot slot))
          hdr_offset).segment_count 0 (u32 (hdr_offset + sizeof_esp_image_header_t)) d w1
        = none) :
    esp_app_image_load soc env fuel slot hdr_offset data w = none := by
  simp only [esp_app_image_load, hopen, hread, ne_eq, not_true_eq_false, if_false, h]

/-- In the `for` loop of `esp_app_image_load`, which starts with `next_addr` at
`hdr_offset + sizeof(esp_image_header_t)`, on every run that ends having recorded `n`
segments the offset recorded in `segment_data[i]` is
`hdr_offset + sizeof(image header) + sum over j < i of (sizeof(segment header) + len_j)
+ sizeof(segment header)` in 32-bit arithmetic, where `len_j` is the data length recorded
for segment `j`; the header of segment `i` is read at that value minus
`sizeof(segment header)`, and these are the only reads of the loop, in segment order. The
loop ends and records all `n` offsets when `n` is at most `ESP_IMAGE_MAX_SEGMENTS` and the
number of free windows is from 2 to 65535. -/
theorem load_segments_offsets (soc : Soc) (env : Env) (fap : flash_area) (hdr_offset : Nat)
    (data : esp_image_metadata_t) (w : World) :
    (∀ (fuel n : Nat) (x : Nat × esp_image_metadata_t) (w1 : World),
      load_segments soc env fuel fap n 0 (u32 (hdr_offset + sizeof_esp_image_header_t)) data w
        = some (some x, w1) →
      (∀ i : Fin ESP_IMAGE_MAX_SEGMENTS, i.val < n →
        x.2.segment_data i = data_offset hdr_offset (segment_len x.2) i.val
        ∧ sub32 (data_offset hdr_offset (segment_len x.2) i.val)
            sizeof_esp_image_segment_header_t
          = header_offset hdr_offset (segment_len x.2) i.val
        ∧ (env.flash_area_read (header_offset hdr_offset (segment_len x.2) i.val)
              sizeof_esp_image_segment_header_t = 0 →
            x.2.segments i
              = read_segment_header env fap (header_offset hdr_offset (segment_len x.2) i.val)))
      ∧ read_offsets (events_since w w1)
        = (List.range n).map (header_offset hdr_offset (segment_len x.2)))
    ∧ (∀ n : Nat, n ≤ ESP_IMAGE_MAX_SEGMENTS →
        2 ≤ u32 env.bootloader_mmap_get_free_pages →
        u32 env.bootloader_mmap_get_free_pages < 65536 →
        ∃ x w1,
          load_segments soc env 65537 fap n 0 (u32 (hdr_offset + sizeof_esp_image_header_t))
            data w = some (some x, w1)) := by
  have hoff : ∀ (len : Nat → Nat) (k : Nat),
      u32 (u32 (hdr_offset + sizeof_esp_image_header_t) + span len 0 k)
        = header_offset hdr_offset len k := by
    intro len k
    rw [span_zero]
    unfold header_offset u32
    omega
  refine ⟨?_, ?_⟩
  · intro fuel n x w1 hrun
    obtain ⟨-, hlay, l, htr, hreads⟩ := load_segments_layout soc env fuel fap n 0
      (u32 (hdr_offset + sizeof_esp_image_header_t)) data w x w1 (u32_lt _) hrun
    refine ⟨?_, ?_⟩
    · intro i hi
      obtain ⟨h1, h2⟩ := hlay i (Nat.zero_le _) (by omega)
      rw [hoff] at h2
      refine ⟨?_, ?_, h2⟩
      · rw [h1, span_zero]
        unfold data_offset u32
        omega
      · unfold data_offset header_offset sub32 u32 sizeof_esp_image_segment_header_t
        omega
    · rw [events_since_append w w1 l htr, hreads]
      apply List.map_congr_left
      intro t _
      rw [Nat.zero_add, hoff]
  · intro n hn hlo hhi
    exact load_segments_returns soc env fap hlo hhi n 0 _ data w (by omega)

/-- For image metadata with at most `ESP_IMAGE_MAX_SEGMENTS` segments and at most one
segment in each mapped class, `unpack_load_app` calls `set_cache_and_start_app` with the
entry address of the image header and with descriptors such that: the instruction-region
descriptor is (`segment_data[i] + fa_off`, load address, length) of the segment `i` whose
load address is in the instruction-mapped range, and all zero if there is none; likewise for
the data-mapped range; a segment in neither range leaves both descriptors as they are. -/
theorem unpack_load_app_descriptors (soc : Soc) (env : Env) (fap : flash_area)
    (data : esp_image_metadata_t) (w : World)
    (hcount : data.image.segment_count ≤ ESP_IMAGE_MAX_SEGMENTS)
    (hirom : ∀ i j : Fin ESP_IMAGE_MAX_SEGMENTS, i.val < data.image.segment_count →
      j.val < data.image.segment_count → in_irom soc (data.segments i) →
      in_irom soc (data.segments j) → i = j)
    (hdrom : ∀ i j : Fin ESP_IMAGE_MAX_SEGMENTS, i.val < data.image.segment_count →
      j.val < data.image.segment_count → in_drom soc (data.segments i) →
      in_drom soc (data.segments j) → i = j) :
    ∃ r w1,
      unpack_segments soc fap data data.image.segment_count 0 ⟨0, 0, 0, 0, 0, 0⟩ w = (some r, w1)
      ∧ unpack_load_app soc env fap data w
        = set_cache_and_start_app soc env r.drom_addr r.drom_load_addr r.drom_size
            r.irom_addr r.irom_load_addr r.irom_size data.image.entry_addr w1
      ∧ (∀ i : Fin ESP_IMAGE_MAX_SEGMENTS, i.val < data.image.segment_count →
          in_irom soc (data.segments i) → r.irom = descriptor fap data i)
      ∧ ((∀ i : Fin ESP_IMAGE_MAX_SEGMENTS, i.val < data.image.segment_count →
          ¬ in_irom soc (data.segments i)) → r.irom = (0, 0, 0))
      ∧ (∀ i : Fin ESP_IMAGE_MAX_SEGMENTS, i.val < data.image.segment_count →
          in_drom soc (data.segments i) → r.drom = descriptor fap data i)
      ∧ ((∀ i : Fin ESP_IMAGE_MAX_SEGMENTS, i.val < data.image.segment_count →
          ¬ in_drom soc (data.segments i)) → r.drom = (0, 0, 0))
      ∧ (∀ (header : esp_image_segment_header_t) (segment_data i : Nat) (r0 : Regions)
          (w0 : World), ¬ in_irom soc header → ¬ in_drom soc header →
          unpack_segment soc fap header segment_data i r0 w0 = (r0, w0)) := by
  obtain ⟨r, w1, l, hrun, -, hkeep, hlast, -⟩ :=
    unpack_segments_class soc fap data (in_irom soc) Regions.irom
      (Event.log_err Log.irom_mapping_failed) (unpack_segment_irom soc fap)
      (irom_log_mem_unpack_segment_events soc) data.image.segment_count 0 ⟨0, 0, 0, 0, 0, 0⟩ w
      (by omega)
  obtain ⟨r2, w2, l2, hrun2, -, hkeep2, hlast2, -⟩ :=
    unpack_segments_class soc fap data (in_drom soc) Regions.drom
      (Event.log_err Log.drom_mapping_failed) (unpack_segment_drom soc fap)
      (drom_log_mem_unpack_segment_events soc) data.image.segment_count 0 ⟨0, 0, 0, 0, 0, 0⟩ w
      (by omega)
  rw [hrun] at hrun2
  obtain ⟨rfl, rfl⟩ : r = r2 ∧ w1 = w2 := by
    simpa using hrun2
  refine ⟨r, w1, hrun, ?_, ?_, ?_, ?_, ?_, ?_⟩
  · unfold unpack_load_app
    rw [hrun]
  · intro i hi hc
    refine hlast i (Nat.zero_le _) (by omega) hc (fun k h1 h2 hk => ?_)
    have := hirom i k hi (by omega) hc hk
    rw [this] at h1
    exact absurd h1 (Nat.lt_irrefl _)
  · intro hno
    exact hkeep (fun k _ h2 => hno k (by omega))
  · intro i hi hc
    refine hlast2 i (Nat.zero_le _) (by omega) hc (fun k h1 h2 hk => ?_)
    have := hdrom i k hi (by omega) hc hk
    rw [this] at h1
    exact absurd h1 (Nat.lt_irrefl _)
  · intro hno
    exact hkeep2 (fun k _ h2 => hno k (by omega))
  · intro header segment_data i r0 w0 hi hd
    exact unpack_segment_neither soc fap header segment_data i r0 w0 hi hd

/-- At `scenario_a_metadata` the instruction-region descriptor is that of segment 0, the
data-region descriptor is all zero, and the segment for 0x3FFB0000 is in neither range. -/
theorem unpack_load_app_scenario_a :
    scenario_a_metadata.image.segment_count ≤ ESP_IMAGE_MAX_SEGMENTS
    ∧ ¬ in_irom esp32 ⟨0x3FFB0000, 16⟩ ∧ ¬ in_drom esp32 ⟨0x3FFB0000, 16⟩
    ∧ ∃ (r : Regions) (w1 : World),
        unpack_load_app esp32 plain_env ⟨0x10000⟩ scenario_a_metadata boot_world
          = set_cache_and_start_app esp32 plain_env r.drom_addr r.drom_load_addr r.drom_size
              r.irom_addr r.irom_load_addr r.irom_size 0x40080000 w1
        ∧ r.irom = (0x10020, 0x400D0020, 4096)
        ∧ r.drom = (0, 0, 0) := by
  refine ⟨by decide, by decide, by decide, ?_⟩
  obtain ⟨r, w1, -, happ, hirom, -, -, hdrom, -⟩ :=
    unpack_load_app_descriptors esp32 plain_env ⟨0x10000⟩ scenario_a_metadata boot_world
      (by decide) (by decide) (by decide)
  exact ⟨r, w1, happ, hirom 0 (by decide) (by decide), hdrom (by decide)⟩

/-! ## The claims -/

/-- C1: on the image of `bad_length_flash` the header of segment 0 is rejected by
`verify_segment_header`, yet `esp_app_image_load` goes on: it reads the header of segment 1,
acquires a window and copies its payload, and finally transfers control to the entry address
0x40080000. -/
theorem esp_app_image_load_continues_after_invalid_segment :
    verify_segment_header esp32 (read_segment_header bad_length_env ⟨0x10000⟩ 0x38) 0x10040
        = ESP_ERR_IMAGE_INVALID
    ∧ (esp_app_image_load esp32 bad_length_env 2 0 0x20 blank_metadata boot_world).map
        (fun r => (r.1, r.2.trace.take 12, r.2.trace.getLast?))
      = some (Exit.launched 0x40080000,
          [Event.flash_area_open 1 0,
            Event.flash_area_read 0x20 24 0,
            Event.log_inf (Log.image_header ⟨0xE9, 2, 0, 0, 0x40080000⟩),
            Event.flash_area_read 0x38 8 0,
            Event.log_inf (Log.segment_info 5 0x40 0x3FFB0000),
            Event.log_err Log.segment_header_verification_failed,
            Event.flash_area_read 0x45 8 0,
            Event.log_inf (Log.segment_info 4 0x4D 0x3FFB0000),
            Event.bootloader_mmap 0x1004D 4 true,
            Event.memcpy 0x3FFB0000 0x1004D 4,
            Event.bootloader_munmap 0x1004D,
            Event.flash_area_close (some ⟨0x10000⟩)],
          some (Event.entry 0x40080000)) := by
  decide

/-- C2: on the image of `two_chunk_flash` (one loadable segment of 0x10004 bytes for address
0x3FFB0000, one free window) the segment is copied in two chunks and both are written to
0x3FFB0000: afterwards the first target byte holds payload byte 0x10000 (value 26) instead of
payload byte 0 (value 1), and the target byte at 0x3FFC0000, where payload byte 0x10000
belongs, is still 0. -/
theorem esp_app_image_load_second_chunk_overwrites_first :
    should_load esp32 0x3FFB0000 = true
    ∧ flash_byte two_chunk_env 0x20000 = 1
    ∧ flash_byte two_chunk_env 0x30000 = 26
    ∧ (esp_app_image_load esp32 two_chunk_env 3 0 0xFFE0 blank_metadata boot_world).map
        (fun r => (r.2.trace.filter Event.is_memcpy, r.2.mem 0x3FFB0000, r.2.mem 0x3FFC0000))
      = some ([Event.memcpy 0x3FFB0000 0x20000 0x10000, Event.memcpy 0x3FFB0000 0x30000 4],
          26, 0) := by
  decide

/-- C3: on the segment of `one_window_flash` there is one free window and
the payload offset 0x40 is not window-aligned, so the maximum chunk is 0 and the copy loop
of `process_segment` never ends: no bound on the number of iterations yields a result. -/
theorem process_segment_never_ends_with_one_window :
    one_window_env.bootloader_mmap_get_free_pages = 1
    ∧ (read_segment_header one_window_env ⟨0x10000⟩ 0x38).data_len = 4
    ∧ max_chunk 1 0x40 = 0
    ∧ ¬ ∃ fuel,
        (process_segment esp32 one_window_env fuel ⟨0x10000⟩ 0x38 ⟨0, 0⟩ boot_world).isSome
          = true := by
  refine ⟨by decide, by decide, by decide, ?_⟩
  rintro ⟨fuel, h⟩
  rw [process_segment_of_valid esp32 one_window_env fuel ⟨0x10000⟩ 0x38 ⟨0, 0⟩ boot_world
    (by decide) (by decide)] at h
  rw [process_segment_loop_stuck one_window_env ⟨0x10000⟩ _ _ _ _ _ (by decide) (by decide)
    (by decide)] at h
  exact absurd h (by decide)

/-- C4: on the segment of `two_chunk_flash`, when the window for the first chunk is refused,
`process_segment` still returns 0 and the loop goes on to request a window for the second
chunk and to copy it. -/
theorem process_segment_resumes_after_mmap_failure :
    (process_segment esp32 mmap_fails_env 3 ⟨0x10000⟩ 0xFFF8 ⟨0, 0⟩ boot_world).map
        (fun r => (r.1, r.2.2.trace))
      = some (0,
          [Event.flash_area_read 0xFFF8 8 0,
            Event.log_inf (Log.segment_info 0x10004 0x10000 0x3FFB0000),
            Event.bootloader_mmap 0x20000 0x10000 false,
            Event.log_err Log.bootloader_mmap_failed,
            Event.bootloader_mmap 0x30000 4 true,
            Event.memcpy 0x3FFB0000 0x30000 4,
            Event.bootloader_munmap 0x30000]) := by
  decide

/-- C5: in a flash area at 0x8000 with one free window, `process_segment` finds the offset
0x10000 window-aligned and requests a window for the 0x10000 bytes at the flash address
0x18000, a range that touches two 64 KiB pages. -/
theorem process_segment_request_spans_two_pages :
    unaligned_area_env.bootloader_mmap_get_free_pages = 1
    ∧ (process_segment esp32 unaligned_area_env 3 ⟨0x8000⟩ 0xFFF8 ⟨0, 0⟩ boot_world).map
        (fun r => (r.1, r.2.2.trace))
      = some (0,
          [Event.flash_area_read 0xFFF8 8 0,
            Event.log_inf (Log.segment_info 0x10000 0x10000 0x3FFB0000),
            Event.bootloader_mmap 0x18000 0x10000 true,
            Event.memcpy 0x3FFB0000 0x18000 0x10000,
            Event.bootloader_munmap 0x18000])
    ∧ pages_touched 0x18000 0x10000 = 2 := by
  decide

/-- C6: `set_cache_and_start_app` makes exactly four page-table programming calls, in this
order: `cache_flash_mmu_set` for the data region for way 0 and way 1, then for the instruction
region for way 0 and way 1, each recorded with the code the service returned. It transfers
control to `entry_addr` if and only if the service returned 0 to all four of them; if it
returned a non-zero value to any of them, and only then, the function returns to its caller
without calling any entry point. -/
theorem set_cache_and_start_app_launch_iff (soc : Soc) (env : Env)
    (drom_addr drom_load_addr drom_size irom_addr irom_load_addr irom_size entry_addr : Nat)
    (w : World) :
    (events_since w (set_cache_and_start_app soc env drom_addr drom_load_addr drom_size
        irom_addr irom_load_addr irom_size entry_addr w).2).filter Event.is_programming
      = [mmu_set_call env 0 drom_addr drom_load_addr drom_size,
         mmu_set_call env 1 drom_addr drom_load_addr drom_size,
         mmu_set_call env 0 irom_addr irom_load_addr irom_size,
         mmu_set_call env 1 irom_addr irom_load_addr irom_size]
    ∧ mmu_set_rcs (events_since w (set_cache_and_start_app soc env drom_addr drom_load_addr
        drom_size irom_addr irom_load_addr irom_size entry_addr w).2)
      = [mmu_set_result env 0 drom_addr drom_load_addr drom_size,
         mmu_set_result env 1 drom_addr drom_load_addr drom_size,
         mmu_set_result env 0 irom_addr irom_load_addr irom_size,
         mmu_set_result env 1 irom_addr irom_load_addr irom_size]
    ∧ (((set_cache_and_start_app soc env drom_addr drom_load_addr drom_size irom_addr
          irom_load_addr irom_size entry_addr w).1 = Exit.launched entry_addr
        ∧ Event.entry entry_addr ∈ events_since w (set_cache_and_start_app soc env drom_addr
          drom_load_addr drom_size irom_addr irom_load_addr irom_size entry_addr w).2)
      ↔ (mmu_set_result env 0 drom_addr drom_load_addr drom_size = 0
        ∧ mmu_set_result env 1 drom_addr drom_load_addr drom_size = 0
        ∧ mmu_set_result env 0 irom_addr irom_load_addr irom_size = 0
        ∧ mmu_set_result env 1 irom_addr irom_load_addr irom_size = 0))
    ∧ (((set_cache_and_start_app soc env drom_addr drom_load_addr drom_size irom_addr
          irom_load_addr irom_size entry_addr w).1 = Exit.returned
        ∧ ∀ a, Event.entry a ∉ events_since w (set_cache_and_start_app soc env drom_addr
          drom_load_addr drom_size irom_addr irom_load_addr irom_size entry_addr w).2)
      ↔ (mmu_set_result env 0 drom_addr drom_load_addr drom_size ≠ 0
        ∨ mmu_set_result env 1 drom_addr drom_load_addr drom_size ≠ 0
        ∨ mmu_set_result env 0 irom_addr irom_load_addr irom_size ≠ 0
        ∨ mmu_set_result env 1 irom_addr irom_load_addr irom_size ≠ 0)) := by
  rw [events_since_append w _ _ (set_cache_and_start_app_trace soc env drom_addr drom_load_addr
    drom_size irom_addr irom_load_addr irom_size entry_addr w)]
  refine ⟨filter_is_programming_set_cache_events soc env drom_addr drom_load_addr drom_size
    irom_addr irom_load_addr irom_size entry_addr, mmu_set_rcs_set_cache_events .., ?_⟩
  simp only [entry_mem_set_cache_events]
  rw [mmu_set_rcs_set_cache_events, set_cache_and_start_app_exit]
  unfold mmu_set_result
  simp only [List.mem_cons, List.not_mem_nil, or_false, forall_eq_or_imp, forall_eq,
    exists_eq_or_imp, exists_eq_left, ne_eq, lor_eq_zero_iff]
  generalize env.cache_flash_mmu_set 0 0 (drom_load_addr &&& MMU_FLASH_MASK)
    (drom_addr &&& MMU_FLASH_MASK) 64 (bootloader_cache_pages_to_map drom_size drom_load_addr) = r1
  generalize env.cache_flash_mmu_set 1 0 (drom_load_addr &&& MMU_FLASH_MASK)
    (drom_addr &&& MMU_FLASH_MASK) 64 (bootloader_cache_pages_to_map drom_size drom_load_addr) = r2
  generalize env.cache_flash_mmu_set 0 0 (irom_load_addr &&& MMU_FLASH_MASK)
    (irom_addr &&& MMU_FLASH_MASK) 64 (bootloader_cache_pages_to_map irom_size irom_load_addr) = r3
  generalize env.cache_flash_mmu_set 1 0 (irom_load_addr &&& MMU_FLASH_MASK)
    (irom_addr &&& MMU_FLASH_MASK) 64 (bootloader_cache_pages_to_map irom_size irom_load_addr) = r4
  by_cases h1 : r1 = 0 <;> by_cases h2 : r2 = 0 <;> by_cases h3 : r3 = 0 <;>
    by_cases h4 : r4 = 0 <;> simp [h1, h2, h3, h4]

/-- C7 (counterexample): in `two_irom_metadata` segments 0 and 1 both lie in the
instruction-mapped range. The conflict is logged, and the descriptor that `unpack_load_app`
records and programs is that of segment 1, the later one, not that of segment 0. -/
theorem unpack_load_app_passes_later_segment :
    in_irom esp32 (two_irom_metadata.segments 0) ∧ in_irom esp32 (two_irom_metadata.segments 1)
    ∧ (unpack_segments esp32 ⟨0x10000⟩ two_irom_metadata 2 0 ⟨0, 0, 0, 0, 0, 0⟩
          boot_world).1.map Regions.irom
        = some (descriptor ⟨0x10000⟩ two_irom_metadata 1)
    ∧ descriptor ⟨0x10000⟩ two_irom_metadata 1 ≠ descriptor ⟨0x10000⟩ two_irom_metadata 0
    ∧ (unpack_load_app esp32 plain_env ⟨0x10000⟩ two_irom_metadata boot_world).2.trace.filter
          (fun e => e.is_programming
            || decide (e = Event.log_err Log.irom_mapping_failed))
        = [Event.log_err Log.irom_mapping_failed,
            mmu_set_call plain_env 0 0 0 0, mmu_set_call plain_env 1 0 0 0,
            mmu_set_call plain_env 0 0x20020 0x400E0020 0x2000,
            mmu_set_call plain_env 1 0x20020 0x400E0020 0x2000] := by
  decide

/-- C7 (amended): for image metadata with at most `ESP_IMAGE_MAX_SEGMENTS` segments, of which
two or more lie in the same mapped class (instruction-mapped or data-mapped),
`unpack_load_app` passes to `set_cache_and_start_app` the descriptor (flash source address,
load address, length) of the last such segment in segment order; it logs the conflict
provided the flash source address of every segment of the class is not zero. -/
theorem unpack_load_app_passes_last_mapped_segment (soc : Soc) (env : Env) (fap : flash_area)
    (data : esp_image_metadata_t) (w : World)
    (hcount : data.image.segment_count ≤ ESP_IMAGE_MAX_SEGMENTS) :
    ∃ r w1,
      unpack_segments soc fap data data.image.segment_count 0 ⟨0, 0, 0, 0, 0, 0⟩ w = (some r, w1)
      ∧ unpack_load_app soc env fap data w
        = set_cache_and_start_app soc env r.drom_addr r.drom_load_addr r.drom_size
            r.irom_addr r.irom_load_addr r.irom_size data.image.entry_addr w1
      ∧ (∀ i j : Fin ESP_IMAGE_MAX_SEGMENTS, i.val < j.val →
          j.val < data.image.segment_count →
          in_irom soc (data.segments i) → in_irom soc (data.segments j) →
          (∀ k : Fin ESP_IMAGE_MAX_SEGMENTS, j.val < k.val →
            k.val < data.image.segment_count → ¬ in_irom soc (data.segments k)) →
          r.irom = descriptor fap data j
          ∧ ((∀ k : Fin ESP_IMAGE_MAX_SEGMENTS, k.val < data.image.segment_count →
                in_irom soc (data.segments k) → (descriptor fap data k).1 ≠ 0) →
              Event.log_err Log.irom_mapping_failed ∈ events_since w w1))
      ∧ (∀ i j : Fin ESP_IMAGE_MAX_SEGMENTS, i.val < j.val →
          j.val < data.image.segment_count →
          in_drom soc (data.segments i) → in_drom soc (data.segments j) →
          (∀ k : Fin ESP_IMAGE_MAX_SEGMENTS, j.val < k.val →
            k.val < data.image.segment_count → ¬ in_drom soc (data.segments k)) →
          r.drom = descriptor fap data j
          ∧ ((∀ k : Fin ESP_IMAGE_MAX_SEGMENTS, k.val < data.image.segment_count →
                in_drom soc (data.segments k) → (descriptor fap data k).1 ≠ 0) →
              Event.log_err Log.drom_mapping_failed ∈ events_since w w1)) := by
  obtain ⟨r, w1, l, hrun, htr, -, hlast, hnz⟩ :=
    unpack_segments_class soc fap data (in_irom soc) Regions.irom
      (Event.log_err Log.irom_mapping_failed) (unpack_segment_irom soc fap)
      (irom_log_mem_unpack_segment_events soc) data.image.segment_count 0 ⟨0, 0, 0, 0, 0, 0⟩ w
      (by omega)
  obtain ⟨r2, w2, l2, hrun2, htr2, -, hlast2, hnz2⟩ :=
    unpack_segments_class soc fap data (in_drom soc) Regions.drom
      (Event.log_err Log.drom_mapping_failed) (unpack_segment_drom soc fap)
      (drom_log_mem_unpack_segment_events soc) data.image.segment_count 0 ⟨0, 0, 0, 0, 0, 0⟩ w
      (by omega)
  rw [hrun] at hrun2
  obtain ⟨rfl, rfl⟩ : r = r2 ∧ w1 = w2 := by
    simpa using hrun2
  have hev : events_since w w1 = l := events_since_append w w1 l htr
  refine ⟨r, w1, hrun, ?_, ?_, ?_⟩
  · unfold unpack_load_app
    rw [hrun]
  · intro i j hij hj hi hjc hafter
    refine ⟨hlast j (Nat.zero_le _) (by omega) hjc (fun k h1 h2 => hafter k h1 (by omega)), ?_⟩
    intro hnonzero
    rw [hev]
    exact (hnz (fun k _ h2 => hnonzero k (by omega))).2
      ⟨i, j, Nat.zero_le _, hij, by omega, hi, hjc⟩
  · intro i j hij hj hi hjc hafter
    refine ⟨hlast2 j (Nat.zero_le _) (by omega) hjc (fun k h1 h2 => hafter k h1 (by omega)), ?_⟩
    intro hnonzero
    rw [events_since_append w w1 l2 htr2]
    exact (hnz2 (fun k _ h2 => hnonzero k (by omega))).2
      ⟨i, j, Nat.zero_le _, hij, by omega, hi, hjc⟩

/-- C7 (amended), at `two_irom_metadata`: the descriptor recorded for the instruction region
is that of segment 1 and the conflict is logged. -/
theorem unpack_load_app_passes_last_mapped_segment_witness :
    two_irom_metadata.image.segment_count ≤ ESP_IMAGE_MAX_SEGMENTS
    ∧ ∃ r w1,
        unpack_segments esp32 ⟨0x10000⟩ two_irom_metadata 2 0 ⟨0, 0, 0, 0, 0, 0⟩ boot_world
          = (some r, w1)
        ∧ r.irom = descriptor ⟨0x10000⟩ two_irom_metadata 1
        ∧ Event.log_err Log.irom_mapping_failed ∈ events_since boot_world w1 := by
  refine ⟨by decide, ?_⟩
  obtain ⟨r, w1, hrun, -, hirom, -⟩ :=
    unpack_load_app_passes_last_mapped_segment esp32 plain_env ⟨0x10000⟩ two_irom_metadata
      boot_world (by decide)
  have h := hirom 0 1 (by decide) (by decide) (by decide) (by decide) (by decide)
  exact ⟨r, w1, hrun, h.1, h.2 (by decide)⟩

/-- C8: for a segment header with a mapped load address and a data length that is a multiple
of 4 and below 16 MiB, and for every flash offset, `verify_segment_header` returns `ESP_OK` if
and only if the flash offset and the load address agree modulo 65536, and it returns
`ESP_ERR_IMAGE_INVALID` otherwise. -/
theorem verify_segment_header_mapped (soc : Soc) (segment : esp_image_segment_header_t)
    (flash_offset : Nat)
    (hmap : should_map soc segment.load_addr = true)
    (hlen4 : segment.data_len % 4 = 0) (hlen : segment.data_len < 0x1000000) :
    (verify_segment_header soc segment flash_offset = ESP_OK
        ↔ flash_offset % 65536 = segment.load_addr % 65536)
      ∧ (verify_segment_header soc segment flash_offset = ESP_ERR_IMAGE_INVALID
        ↔ flash_offset % 65536 ≠ segment.load_addr % 65536) := by
  have hguard : ¬ (segment.data_len &&& 3 ≠ 0 ∨ segment.data_len ≥ 0x1000000) := by
    rw [and_three_eq_mod]
    omega
  unfold verify_segment_header
  rw [if_neg hguard]
  simp only [hmap, true_and, SPI_FLASH_MMU_PAGE_SIZE]
  by_cases hc : flash_offset % 65536 = segment.load_addr % 65536
  · simp [hc, ESP_OK, ESP_ERR_IMAGE_INVALID]
  · simp [hc, ESP_OK, ESP_ERR_IMAGE_INVALID]

/-- C8, at a segment for the instruction-mapped address 0x400D0020 of length 0x1000 whose
payload lies at the flash offset 0x20020. -/
theorem verify_segment_header_mapped_witness :
    should_map esp32 0x400D0020 = true ∧ 0x1000 % 4 = 0 ∧ 0x1000 < 0x1000000
    ∧ (verify_segment_header esp32 ⟨0x400D0020, 0x1000⟩ 0x20020 = ESP_OK
        ↔ 0x20020 % 65536 = 0x400D0020 % 65536) :=
  ⟨by decide, by decide, by decide,
    (verify_segment_header_mapped esp32 ⟨0x400D0020, 0x1000⟩ 0x20020 (by decide) (by decide)
      (by decide)).1⟩

/-- C9: a segment header whose data length is not a multiple of 4, or is at least
0x1000000 (16 MiB), is rejected with `ESP_ERR_IMAGE_INVALID`, whatever the load address and
the flash offset. -/
theorem verify_segment_header_bad_length (soc : Soc) (segment : esp_image_segment_header_t)
    (segment_data_offs : Nat)
    (h : segment.data_len % 4 ≠ 0 ∨ segment.data_len ≥ 0x1000000) :
    verify_segment_header soc segment segment_data_offs = ESP_ERR_IMAGE_INVALID := by
  unfold verify_segment_header
  rw [and_three_eq_mod]
  rw [if_pos h]

/-- C9, at a segment of length 5. -/
theorem verify_segment_header_bad_length_witness :
    (5 % 4 ≠ 0 ∨ 5 ≥ 0x1000000)
    ∧ verify_segment_header esp32 ⟨0x3FFB0000, 5⟩ 0x10040 = ESP_ERR_IMAGE_INVALID :=
  ⟨by decide, verify_segment_header_bad_length esp32 ⟨0x3FFB0000, 5⟩ 0x10040 (by decide)⟩

/-- C10 (counterexample): a run that programs one data page for both cache ways. The table
of way 1 is programmed (its entry 0), but none of its entries is invalidated: entry 5, which
is not programmed, still holds the mapping to flash page 7 that it held before the call. -/
theorem set_cache_and_start_app_leaves_app_table :
    Event.cache_flash_mmu_set 1 0 0x3F400000 0x20000 64 1 0 ∈
        (set_cache_and_start_app esp32 plain_env 0x20020 0x3F400020 0x1000 0 0 0 0x40080000
          boot_world).2.trace
    ∧ (set_cache_and_start_app esp32 plain_env 0x20020 0x3F400020 0x1000 0 0 0 0x40080000
          boot_world).2.app_mmu 0 = 2
    ∧ ¬ programmed plain_env (0x3F400020 &&& MMU_FLASH_MASK)
          (bootloader_cache_pages_to_map 0x1000 0x3F400020) 5
    ∧ ¬ programmed plain_env (0 &&& MMU_FLASH_MASK) (bootloader_cache_pages_to_map 0 0) 5
    ∧ (set_cache_and_start_app esp32 plain_env 0x20020 0x3F400020 0x1000 0 0 0 0x40080000
          boot_world).2.app_mmu 5 = 7
    ∧ 7 ≠ esp32.DPORT_FLASH_MMU_TABLE_INVALID_VAL := by
  decide

/-- C10 (amended): in every run of `set_cache_and_start_app` every page-table write
(invalidating store or programming call) lies after the cache read-disable and before the
cache read-enable; every entry of the table of cache way 0 (`DPORT_PRO_FLASH_MMU_TABLE`) is
set to the invalid value before any entry is programmed, and afterwards every entry of that
table outside the two programmed ranges is invalid. The table of cache way 1 is programmed
but not invalidated: its entries outside the two programmed ranges keep the values they had
before the call. -/
theorem set_cache_and_start_app_table_discipline (soc : Soc) (env : Env)
    (drom_addr drom_load_addr drom_size irom_addr irom_load_addr irom_size entry_addr : Nat)
    (w : World) :
    (∃ inv prog last,
      events_since w (set_cache_and_start_app soc env drom_addr drom_load_addr drom_size
          irom_addr irom_load_addr irom_size entry_addr w).2
        = [Event.Cache_Read_Disable 0, Event.Cache_Flush 0] ++ inv ++ prog
          ++ [Event.Cache_Read_Enable 0, last]
      ∧ last.is_table_write = false
      ∧ Event.Cache_Read_Enable 0 ∉ inv ++ prog
      ∧ (∀ i, i < soc.DPORT_FLASH_MMU_TABLE_SIZE →
          Event.pro_flash_mmu_table_store i soc.DPORT_FLASH_MMU_TABLE_INVALID_VAL ∈ inv)
      ∧ (∀ e ∈ inv, e.is_programming = false)
      ∧ prog.filter Event.is_programming
        = [mmu_set_call env 0 drom_addr drom_load_addr drom_size,
            mmu_set_call env 1 drom_addr drom_load_addr drom_size,
            mmu_set_call env 0 irom_addr irom_load_addr irom_size,
            mmu_set_call env 1 irom_addr irom_load_addr irom_size])
    ∧ (∀ i, i < soc.DPORT_FLASH_MMU_TABLE_SIZE →
        ¬ programmed env (drom_load_addr &&& MMU_FLASH_MASK)
          (bootloader_cache_pages_to_map drom_size drom_load_addr) i →
        ¬ programmed env (irom_load_addr &&& MMU_FLASH_MASK)
          (bootloader_cache_pages_to_map irom_size irom_load_addr) i →
        (set_cache_and_start_app soc env drom_addr drom_load_addr drom_size irom_addr
          irom_load_addr irom_size entry_addr w).2.pro_mmu i
            = soc.DPORT_FLASH_MMU_TABLE_INVALID_VAL)
    ∧ (∀ i,
        ¬ programmed env (drom_load_addr &&& MMU_FLASH_MASK)
          (bootloader_cache_pages_to_map drom_size drom_load_addr) i →
        ¬ programmed env (irom_load_addr &&& MMU_FLASH_MASK)
          (bootloader_cache_pages_to_map irom_size irom_load_addr) i →
        (set_cache_and_start_app soc env drom_addr drom_load_addr drom_size irom_addr
          irom_load_addr irom_size entry_addr w).2.app_mmu i = w.app_mmu i) := by
  refine ⟨?_, ?_, ?_⟩
  · rw [events_since_append w _ _ (set_cache_and_start_app_trace soc env drom_addr
      drom_load_addr drom_size irom_addr irom_load_addr irom_size entry_addr w)]
    obtain ⟨last, hlast, hsplit⟩ := set_cache_events_split soc env drom_addr drom_load_addr
      drom_size irom_addr irom_load_addr irom_size entry_addr
    refine ⟨clear_events soc soc.DPORT_FLASH_MMU_TABLE_SIZE 0, _, last, hsplit, hlast, ?_, ?_,
      is_programming_clear_events soc _ 0, rfl⟩
    · simp [mem_clear_events, mmu_set_call]
    · intro i hi
      exact (mem_clear_events soc _ 0 _).2 ⟨i, hi, by rw [Nat.zero_add]⟩
  · intro i hi hd hir
    rw [set_cache_and_start_app_pro_mmu soc env _ _ _ _ _ _ _ w i hd hir, if_pos hi]
  · intro i hd hir
    exact set_cache_and_start_app_app_mmu soc env _ _ _ _ _ _ _ w i hd hir

/-- C10 (amended), at the run of the counterexample: entry 5 of the table of way 0 is not
programmed and is invalid afterwards. -/
theorem set_cache_and_start_app_table_discipline_witness :
    5 < esp32.DPORT_FLASH_MMU_TABLE_SIZE
    ∧ ¬ programmed plain_env (0x3F400020 &&& MMU_FLASH_MASK)
          (bootloader_cache_pages_to_map 0x1000 0x3F400020) 5
    ∧ ¬ programmed plain_env (0 &&& MMU_FLASH_MASK) (bootloader_cache_pages_to_map 0 0) 5
    ∧ (set_cache_and_start_app esp32 plain_env 0x20020 0x3F400020 0x1000 0 0 0 0x40080000
          boot_world).2.pro_mmu 5 = esp32.DPORT_FLASH_MMU_TABLE_INVALID_VAL :=
  ⟨by decide, by decide, by decide,
    (set_cache_and_start_app_table_discipline esp32 plain_env 0x20020 0x3F400020 0x1000 0 0 0
      0x40080000 boot_world).2.1 5 (by decide) (by decide) (by decide)⟩

/-- C11: `should_map` is true exactly on the instruction-mapped and the data-mapped range, and
wherever `should_map` is true `should_load` is false. -/
theorem should_map_ranges_not_loaded (soc : Soc) (a : Nat) :
    (should_map soc a = true ↔
      (soc.SOC_IROM_LOW ≤ a ∧ a < soc.SOC_IROM_HIGH)
        ∨ (soc.SOC_DROM_LOW ≤ a ∧ a < soc.SOC_DROM_HIGH))
    ∧ (should_map soc a = true → should_load soc a = false) := by
  refine ⟨should_map_iff soc a, fun h => ?_⟩
  simp [should_load, h]

/-- C11, at the address 0x400D0020 of the instruction-mapped range of the ESP32. -/
theorem should_map_ranges_not_loaded_witness :
    should_map esp32 0x400D0020 = true ∧ should_load esp32 0x400D0020 = false :=
  ⟨by decide, (should_map_ranges_not_loaded esp32 0x400D0020).2 (by decide)⟩

/-- C12 (counterexample): 0x50000000 lies in the RTC data range of the ESP32 and `should_load`
is false there. `should_load` has no input for the reset reason (its `load_rtc_memory` is
the constant `false`), so its answer cannot be false when the boot does not resume from
retention and true when it does. -/
theorem should_load_ignores_reset_reason :
    in_rtc esp32 0x50000000
    ∧ should_load esp32 0x50000000 = false
    ∧ ¬ ∀ resuming_from_retention : Bool,
        should_load esp32 0x50000000 = resuming_from_retention := by
  decide

/-- C12 (amended): for every address inside any of the three retained-memory ranges
`should_load` is false; the decision does not depend on the reset reason. -/
theorem should_load_rtc_false (soc : Soc) (a : Nat) (h : in_rtc soc a) :
    should_load soc a = false := by
  unfold in_rtc at h
  unfold should_load
  by_cases hm : should_map soc a = true
  · simp [hm]
  · by_cases hl : a < 0x10000000
    · simp [hm, hl]
    · rcases h with h | h | h <;> simp [hm, hl, h.1, h.2]

/-- C12 (amended), at the address 0x50000000 of the RTC data range of the ESP32. -/
theorem should_load_rtc_false_witness :
    in_rtc esp32 0x50000000 ∧ should_load esp32 0x50000000 = false :=
  ⟨by decide, should_load_rtc_false esp32 0x50000000 (by decide)⟩

/-- C13: for every address below 0x10000000 `should_load` is false. -/
theorem should_load_reserved_low (soc : Soc) (a : Nat) (h : a < 0x10000000) :
    should_load soc a = false := by
  unfold should_load
  by_cases hm : should_map soc a = true
  · simp [hm]
  · simp [hm, h]

/-- C13, at the address 4 (reserved for an MD5 block). -/
theorem should_load_reserved_low_witness :
    4 < 0x10000000 ∧ should_load esp32 4 = false :=
  ⟨by decide, should_load_reserved_low esp32 4 (by decide)⟩

/-- C14: when the header of a segment has been read and `verify_segment_header` rejects it,
`process_segment` returns the error -1 for every bound on the copy loop; between the read
and the return it only logs: it requests no window, copies nothing and leaves the target
memory as it was. -/
theorem process_segment_invalid_header (soc : Soc) (env : Env) (fuel : Nat) (fap : flash_area)
    (offset : Nat) (header : esp_image_segment_header_t) (w : World)
    (hread : env.flash_area_read offset sizeof_esp_image_segment_header_t = 0)
    (hinvalid : verify_segment_header soc (read_segment_header env fap offset)
      (u32 (fap.fa_off + u32 (offset + sizeof_esp_image_segment_header_t))) ≠ ESP_OK) :
    ∃ w1,
      process_segment soc env fuel fap offset header w
        = some (-1, read_segment_header env fap offset, w1)
      ∧ w1.mem = w.mem
      ∧ events_since w w1
        = [Event.flash_area_read offset sizeof_esp_image_segment_header_t 0,
            Event.log_inf (Log.segment_info (read_segment_header env fap offset).data_len
              (u32 (offset + sizeof_esp_image_segment_header_t))
              (read_segment_header env fap offset).load_addr),
            Event.log_err Log.segment_header_verification_failed]
      ∧ ∀ e ∈ events_since w w1,
          e.is_mmap = false ∧ e.is_memcpy = false ∧ e.is_munmap = false := by
  refine ⟨((w.emit (Event.flash_area_read offset sizeof_esp_image_segment_header_t 0)).emit
      (Event.log_inf (Log.segment_info (read_segment_header env fap offset).data_len
        (u32 (offset + sizeof_esp_image_segment_header_t))
        (read_segment_header env fap offset).load_addr))).emit
      (Event.log_err Log.segment_header_verification_failed), ?_, rfl, ?_, ?_⟩
  · unfold process_segment
    simp only [hread, ne_eq, not_true_eq_false, if_false]
    rw [if_pos hinvalid]
  · simp [events_since]
  · intro e he
    simp [events_since] at he
    rcases he with rfl | rfl | rfl <;> exact ⟨rfl, rfl, rfl⟩

/-- C14, at the first segment of `bad_length_flash`, whose data length is 5. -/
theorem process_segment_invalid_header_witness :
    bad_length_env.flash_area_read 0x38 sizeof_esp_image_segment_header_t = 0
    ∧ (read_segment_header bad_length_env ⟨0x10000⟩ 0x38).data_len = 5
    ∧ ∃ w1,
        process_segment esp32 bad_length_env 0 ⟨0x10000⟩ 0x38 ⟨0, 0⟩ boot_world
          = some (-1, read_segment_header bad_length_env ⟨0x10000⟩ 0x38, w1)
        ∧ w1.mem = boot_world.mem := by
  obtain ⟨w1, h1, h2, -⟩ := process_segment_invalid_header esp32 bad_length_env 0 ⟨0x10000⟩
    0x38 ⟨0, 0⟩ boot_world (by decide) (by decide)
  exact ⟨by decide, by decide, w1, h1, h2⟩

/-- C15: the segment of `mapped_segment_flash` is valid and not loadable (its load address is
in the instruction-mapped range), but with one free window and a payload offset that is not
window-aligned the maximum chunk is 0 and the loop of `process_segment` never ends: no bound
on the number of iterations yields a return value. -/
theorem process_segment_never_returns_for_mapped_segment :
    mapped_segment_env.bootloader_mmap_get_free_pages = 1
    ∧ read_segment_header mapped_segment_env ⟨0x10000⟩ 0x38 = ⟨0x400D0040, 4⟩
    ∧ verify_segment_header esp32 ⟨0x400D0040, 4⟩ 0x10040 = ESP_OK
    ∧ should_load esp32 0x400D0040 = false
    ∧ ¬ ∃ fuel,
        (process_segment esp32 mapped_segment_env fuel ⟨0x10000⟩ 0x38 ⟨0, 0⟩
          boot_world).isSome = true := by
  refine ⟨by decide, by decide, by decide, by decide, ?_⟩
  rintro ⟨fuel, h⟩
  rw [process_segment_of_valid esp32 mapped_segment_env fuel ⟨0x10000⟩ 0x38 ⟨0, 0⟩ boot_world
    (by decide) (by decide)] at h
  rw [process_segment_loop_stuck mapped_segment_env ⟨0x10000⟩ _ _ _ _ _ (by decide) (by decide)
    (by decide)] at h
  exact absurd h (by decide)

/-- C16: the image of `stalled_image_flash` has two segments of length 4 after the image
header at offset 0x20, so the flash data offsets to record are 0x40 for segment 0 and 0x4C
for segment 1. With one free window the copy loop of the first segment never ends (its
payload offset 0x40 is not window-aligned, so the maximum chunk is 0): for no bound on the
number of iterations does the `for` loop of `esp_app_image_load`, or `esp_app_image_load`
itself, come to an end, and no offset is recorded for either segment. -/
theorem esp_app_image_load_records_no_offset_with_one_window :
    (read_image_header stalled_image_env ⟨0x10000⟩ 0x20).segment_count = 2
    ∧ read_segment_header stalled_image_env ⟨0x10000⟩ 0x38 = ⟨0x3FFB0000, 4⟩
    ∧ read_segment_header stalled_image_env ⟨0x10000⟩ 0x44 = ⟨0x3FFB0010, 4⟩
    ∧ stalled_image_env.bootloader_mmap_get_free_pages = 1
    ∧ (¬ ∃ fuel, (load_segments esp32 stalled_image_env fuel ⟨0x10000⟩ 2 0
        (u32 (0x20 + sizeof_esp_image_header_t)) blank_metadata boot_world).isSome = true)
    ∧ ¬ ∃ fuel, (esp_app_image_load esp32 stalled_image_env fuel 0 0x20 blank_metadata
        boot_world).isSome = true := by
  have hps : ∀ (fuel : Nat) (header : esp_image_segment_header_t) (w : World),
      process_segment esp32 stalled_image_env fuel ⟨0x10000⟩ 0x38 header w = none := by
    intro fuel header w
    rw [process_segment_of_valid esp32 stalled_image_env fuel ⟨0x10000⟩ 0x38 header w
      (by decide) (by decide)]
    rw [process_segment_loop_stuck stalled_image_env ⟨0x10000⟩ _ _ _ _ _ (by decide)
      (by decide) (by decide)]
    rfl
  have hls : ∀ (fuel : Nat) (d : esp_image_metadata_t) (w : World),
      load_segments esp32 stalled_image_env fuel ⟨0x10000⟩ 2 0
        (u32 (0x20 + sizeof_esp_image_header_t)) d w = none := by
    intro fuel d w
    exact load_segments_stuck esp32 stalled_image_env fuel ⟨0x10000⟩ 1 0 0x38 d w (by decide)
      (hps fuel _ w)
  refine ⟨by decide, by decide, by decide, by decide, ?_, ?_⟩
  · rintro ⟨fuel, h⟩
    rw [hls] at h
    exact absurd h (by decide)
  · rintro ⟨fuel, h⟩
    rw [esp_app_image_load_stuck esp32 stalled_image_env fuel 0 0x20 blank_metadata boot_world
      rfl rfl (fun d w1 => hls fuel d w1)] at h
    exact absurd h (by decide)

/-- C18 (counterexample): a run with all six address and size arguments zero and a
programming routine that succeeds. Control is transferred to the entry address, but entry 5
of the page table of cache way 1 still holds the mapping to flash page 7 that it held before
the call: not every page-table entry is invalid afterwards. -/
theorem set_cache_and_start_app_no_regions_keeps_app_table :
    (set_cache_and_start_app esp32 plain_env 0 0 0 0 0 0 0x40080000 boot_world).1
        = Exit.launched 0x40080000
    ∧ (set_cache_and_start_app esp32 plain_env 0 0 0 0 0 0 0x40080000 boot_world).2.app_mmu 5
        = 7
    ∧ 7 ≠ esp32.DPORT_FLASH_MMU_TABLE_INVALID_VAL := by
  decide

/-- C18 (amended): when `set_cache_and_start_app` is called with all six address and size
arguments zero and the programming routine succeeds, every entry of the page table of cache
way 0 (`DPORT_PRO_FLASH_MMU_TABLE`) is invalid afterwards and the page table of cache way 1
is as it was before the call; the four programming requests cover zero pages each, so no
entry is programmed; the cache is re-enabled, and control is transferred to the entry
address. -/
theorem set_cache_and_start_app_no_regions (soc : Soc) (env : Env) (entry_addr : Nat)
    (w : World)
    (h0 : env.cache_flash_mmu_set 0 0 0 0 64 0 = 0)
    (h1 : env.cache_flash_mmu_set 1 0 0 0 64 0 = 0) :
    (∀ i, (set_cache_and_start_app soc env 0 0 0 0 0 0 entry_addr w).2.pro_mmu i
        = if i < soc.DPORT_FLASH_MMU_TABLE_SIZE then soc.DPORT_FLASH_MMU_TABLE_INVALID_VAL
          else w.pro_mmu i)
    ∧ (set_cache_and_start_app soc env 0 0 0 0 0 0 entry_addr w).2.app_mmu = w.app_mmu
    ∧ (events_since w (set_cache_and_start_app soc env 0 0 0 0 0 0 entry_addr w).2).filter
          Event.is_programming
        = [Event.cache_flash_mmu_set 0 0 0 0 64 0 0, Event.cache_flash_mmu_set 1 0 0 0 64 0 0,
            Event.cache_flash_mmu_set 0 0 0 0 64 0 0, Event.cache_flash_mmu_set 1 0 0 0 64 0 0]
    ∧ (∃ l, events_since w (set_cache_and_start_app soc env 0 0 0 0 0 0 entry_addr w).2
        = l ++ [Event.Cache_Read_Enable 0, Event.entry entry_addr])
    ∧ (set_cache_and_start_app soc env 0 0 0 0 0 0 entry_addr w).1
        = Exit.launched entry_addr := by
  have hev : events_since w (set_cache_and_start_app soc env 0 0 0 0 0 0 entry_addr w).2
      = set_cache_events soc env 0 0 0 0 0 0 entry_addr :=
    events_since_append w _ _ (set_cache_and_start_app_trace soc env 0 0 0 0 0 0 entry_addr w)
  have hnp : ∀ i, ¬ programmed env (0 &&& MMU_FLASH_MASK)
      (bootloader_cache_pages_to_map 0 0) i := by
    intro i
    rw [bootloader_cache_pages_to_map_zero]
    exact not_programmed_zero env _ i
  refine ⟨?_, ?_, ?_, ?_, ?_⟩
  · intro i
    exact set_cache_and_start_app_pro_mmu soc env 0 0 0 0 0 0 entry_addr w i (hnp i) (hnp i)
  · funext i
    exact set_cache_and_start_app_app_mmu soc env 0 0 0 0 0 0 entry_addr w i (hnp i) (hnp i)
  · rw [hev, set_cache_events_no_regions soc env entry_addr h0 h1]
    simp only [List.filter_append, filter_is_programming_clear_events]
    rfl
  · rw [hev, set_cache_events_no_regions soc env entry_addr h0 h1]
    refine ⟨[Event.Cache_Read_Disable 0, Event.Cache_Flush 0]
        ++ clear_events soc soc.DPORT_FLASH_MMU_TABLE_SIZE 0
        ++ [Event.cache_flash_mmu_set 0 0 0 0 64 0 0, Event.cache_flash_mmu_set 1 0 0 0 64 0 0,
            Event.cache_flash_mmu_set 0 0 0 0 64 0 0, Event.cache_flash_mmu_set 1 0 0 0 64 0 0,
            Event.cache_ctrl1_clr_bit 0, Event.cache_ctrl1_clr_bit 1], ?_⟩
    simp
  · rw [set_cache_and_start_app_exit]
    simp only [Nat.zero_and, bootloader_cache_pages_to_map_zero, h0, h1]
    rfl

/-- C18 (amended), on the ESP32 with services that succeed: the run launches the entry
address 0x40080000. -/
theorem set_cache_and_start_app_no_regions_witness :
    plain_env.cache_flash_mmu_set 0 0 0 0 64 0 = 0
    ∧ plain_env.cache_flash_mmu_set 1 0 0 0 64 0 = 0
    ∧ (set_cache_and_start_app esp32 plain_env 0 0 0 0 0 0 0x40080000 boot_world).1
        = Exit.launched 0x40080000 :=
  ⟨by decide, by decide,
    (set_cache_and_start_app_no_regions esp32 plain_env 0x40080000 boot_world (by decide)
      (by decide)).2.2.2.2⟩

/-- C19: when `flash_area_open` fails, `esp_app_image_load` logs the failure and jumps to its
exit label, where it calls `flash_area_close` on the handle that was never opened; nothing is
read, no segment is processed and nothing is launched. -/
theorem esp_app_image_load_closes_unopened_handle :
    (esp_app_image_load esp32 open_fails_env 1 0 0x20 blank_metadata boot_world).map
        (fun r => (r.1, r.2.trace))
      = some (Exit.returned,
          [Event.flash_area_open 1 (-1),
            Event.log_err (Log.flash_area_open_failed (-1)),
            Event.flash_area_close none]) := by
  decide

/-- C20: on the image of `many_segments_flash`, whose header announces 17 segments,
`esp_app_image_load` reaches index 16 of the metadata arrays, whose capacity is 16; so does
`unpack_load_app` on metadata that announce 17 segments. -/
theorem esp_app_image_load_indexes_beyond_capacity :
    (read_image_header many_segments_env ⟨0x10000⟩ 0x20).segment_count = 17
    ∧ (esp_app_image_load esp32 many_segments_env 1 0 0x20 blank_metadata boot_world).map
        (fun r => r.1)
      = some (Exit.out_of_bounds 16)
    ∧ (unpack_load_app esp32 many_segments_env ⟨0x10000⟩ many_segments_metadata boot_world).1
      = Exit.out_of_bounds 16 := by
  decide

end EspLoader
